import Mathlib

/-!
Verification development for the BACnet stack core: a shallow embedding of
the NPDU codec (src/bacnet/npdu.c), the Load Control object state machine and
property-write entry point (src/bacnet/basic/object/lc.c), and the tagged
application-value decode and structural-equality utilities (bacapp part of
the same translation unit), with theorems settling the specification claims.

Machine integers are modelled as `Nat`/`Int`; C `float`/`double` REAL values
are modelled by the symbolic type `FP` (exact rationals plus a NaN element;
IEEE rounding and infinities are not modelled, infinities collapse to NaN).
Buffers are `List Nat` of octets.  Out-parameters become explicit returned
values; a NULL C pointer argument is `Option.none`.
-/

namespace BacnetStack

/-! ## Constants shared with the missing headers

The repository headers bacdef.h / bacenum.h are not under src/; the constants
below are modelled from the spec (section 6, "Constants exposed at the
boundary") and from the BACnet standard values the spec's wire examples pin
down. -/

/-- Modelled from the spec: `MAX_MAC_LEN` from bacdef.h (7 for BACnet/IP builds). -/
def MAX_MAC_LEN : Nat := 7

/-- Modelled from the spec: `BACNET_BROADCAST_NETWORK = 0xFFFF`. -/
def BACNET_BROADCAST_NETWORK : Nat := 65535

/-- Modelled from the spec: sentinel `NETWORK_MESSAGE_INVALID` from bacenum.h,
the first value outside the one-octet message-type range. -/
def NETWORK_MESSAGE_INVALID : Nat := 256

/-- Modelled from the spec: `BACNET_STATUS_ERROR` from bacdef.h. -/
def BACNET_STATUS_ERROR : Int := -1

/-- Modelled from the spec: `BACNET_ARRAY_ALL = 0xFFFFFFFF`. -/
def BACNET_ARRAY_ALL : Nat := 4294967295

/-! ## NPDU data model (bacnet/npdu.h, bacdef.h) -/

/-- BACNET_ADDRESS from bacdef.h: network number (u16), mac length (u8) and
the mac octet array.  The C array `adr[MAX_MAC_LEN]` is modelled as a list;
reading slot `i` is `adr.getD i 0`, so octets beyond the list are zero. -/
structure BACNET_ADDRESS where
  net : Nat
  len : Nat
  adr : List Nat
deriving DecidableEq

/-- BACNET_NPDU_DATA from bacnet/npdu.h (the logical NPDU header). -/
structure BACNET_NPDU_DATA where
  protocol_version : Nat
  data_expecting_reply : Bool
  network_layer_message : Bool
  priority : Nat
  network_message_type : Nat
  vendor_id : Nat
  hop_count : Nat
deriving DecidableEq

/-- Fresh all-zero address struct, as a C caller would memset it. -/
def zeroAddress : BACNET_ADDRESS := { net := 0, len := 0, adr := [] }

/-- Fresh all-zero npdu_data struct. -/
def zeroNpduData : BACNET_NPDU_DATA :=
  { protocol_version := 0, data_expecting_reply := false,
    network_layer_message := false, priority := 0,
    network_message_type := 0, vendor_id := 0, hop_count := 0 }

/-- Modelled from the spec: `encode_unsigned16` from bacint.c (not under src),
big-endian two-octet encoding of a u16. -/
def encode_unsigned16 (v : Nat) : List Nat := [v / 256 % 256, v % 256]

/-- The mac-length clamp performed inside `npdu_encode_pdu` on the caller's
address struct (`if (dest->len > MAX_MAC_LEN) dest->len = MAX_MAC_LEN;`). -/
def clampMac (a : BACNET_ADDRESS) : BACNET_ADDRESS :=
  if a.len > MAX_MAC_LEN then { a with len := MAX_MAC_LEN } else a

/-- The address octets emitted by the encoder's `for (i = 0; i < len; i++)
npdu[len++] = adr[i];` loop. -/
def macBytes (a : BACNET_ADDRESS) : List Nat :=
  (List.range a.len).map (fun i => a.adr.getD i 0)

/-- Result of `npdu_encode_pdu`: the emitted octets together with the final
contents of the caller-owned `dest`/`src` structs (the C function mutates
their `len` field when clamping). -/
structure NpduEncodeResult where
  bytes : List Nat
  dest : Option BACNET_ADDRESS
  src : Option BACNET_ADDRESS
deriving DecidableEq

/-- npdu_encode_pdu (src/bacnet/npdu.c lines 100-234), the non-NULL-buffer
path.  Destination fields are emitted iff `dest && dest->net`, source fields
iff `src && src->net && src->len`; an over-long mac length is clamped in the
caller's struct before emission.  Assignments into the octet buffer from
wider C expressions are truncated exactly where the C types truncate
(`priority & 0x03`, the message-type enum stored into a u8).
`npduControlOctet` is the control octet the encoder ORs together
(bit 7 network message, bit 5 destination, bit 3 source, bit 2
data-expecting-reply, bits 1-0 priority). -/
def npduControlOctet (nlm dp sp der : Bool) (priority : Nat) : Nat :=
  (if nlm then 128 else 0) + (if dp then 32 else 0) + (if sp then 8 else 0) +
    (if der then 4 else 0) + priority % 4

def npdu_encode_pdu (dest src : Option BACNET_ADDRESS) (nd : BACNET_NPDU_DATA) :
    NpduEncodeResult :=
  let dp : Bool := match dest with | some d => decide (d.net ≠ 0) | none => false
  let sp : Bool :=
    match src with | some s => decide (s.net ≠ 0 ∧ s.len ≠ 0) | none => false
  let control : Nat :=
    npduControlOctet nd.network_layer_message dp sp nd.data_expecting_reply nd.priority
  let dest1 := if dp then dest.map clampMac else dest
  let src1 := if sp then src.map clampMac else src
  let destSeg : List Nat :=
    match dest1 with
    | some d => if dp then encode_unsigned16 d.net ++ d.len :: macBytes d else []
    | none => []
  let srcSeg : List Nat :=
    match src1 with
    | some s => if sp then encode_unsigned16 s.net ++ s.len :: macBytes s else []
    | none => []
  let hopSeg : List Nat := if dp then [nd.hop_count] else []
  let msgSeg : List Nat :=
    if nd.network_layer_message then
      nd.network_message_type % 256 ::
        (if nd.network_message_type ≥ 128 then encode_unsigned16 nd.vendor_id else [])
    else []
  { bytes := nd.protocol_version :: control :: (destSeg ++ srcSeg ++ hopSeg ++ msgSeg),
    dest := dest1, src := src1 }

/-- Zeroing of the destination struct done by `bacnet_npdu_decode` when the
control octet's destination bit is clear. -/
def zero_dest (a : BACNET_ADDRESS) : BACNET_ADDRESS :=
  { net := 0, len := 0, adr := a.adr.map (fun _ => 0) }

/-- Zeroing of the source struct done by `bacnet_npdu_decode` when the source
bit is clear: a `src->net` pre-set to `BACNET_BROADCAST_NETWORK` is kept. -/
def zero_src (a : BACNET_ADDRESS) : BACNET_ADDRESS :=
  { net := if a.net = BACNET_BROADCAST_NETWORK then a.net else 0,
    len := 0, adr := a.adr.map (fun _ => 0) }

/-- Outcome of one DNET/DLEN/DADR (resp. SNET/SLEN/SADR) block of
`bacnet_npdu_decode`.  `ok = false` is the C `return -1` path. -/
structure NpduDecodeAddr where
  ok : Bool
  consumed : Nat
  net : Nat
  addr : Option BACNET_ADDRESS
  rest : List Nat
deriving DecidableEq

/-- One address block of `bacnet_npdu_decode` (src/bacnet/npdu.c lines
473-497 and 510-534), operating on the not-yet-consumed suffix of the
buffer.  When fewer than three octets remain (`pdu_len < len + 3`) the whole
block is skipped without error and without touching the address struct.
A non-zero declared mac length that exceeds `MAX_MAC_LEN`, or that runs past
the end of the buffer, is the `return -1` path; the net and len fields have
already been stored into the caller's struct at that point. -/
def npdu_decode_addr (buf : List Nat) (a0 : Option BACNET_ADDRESS) :
    NpduDecodeAddr :=
  match buf with
  | n1 :: n2 :: alen :: r =>
      let net := n1 * 256 + n2
      let a1 := a0.map (fun a => { a with net := net, len := alen })
      if alen = 0 then ⟨true, 3, net, a1, r⟩
      else if alen > MAX_MAC_LEN ∨ r.length < alen then ⟨false, 3, net, a1, r⟩
      else
        ⟨true, 3 + alen, net,
          a1.map (fun a => { a with adr := r.take alen ++ a.adr.drop alen }),
          r.drop alen⟩
  | _ => ⟨true, 0, 0, a0, buf⟩

/-- bacnet_npdu_decode (src/bacnet/npdu.c lines 426-584).  Returns the number
of octets consumed (0 for a buffer shorter than two octets, -1 for a
malformed address field) together with the final contents of the out
parameters.  The `npdu` and `npdu_data` pointers of the C signature are
always non-NULL here; `dest`/`src` may be `none` (NULL). -/
def bacnet_npdu_decode (npdu : List Nat) (dest src : Option BACNET_ADDRESS)
    (nd : BACNET_NPDU_DATA) :
    Int × Option BACNET_ADDRESS × Option BACNET_ADDRESS × BACNET_NPDU_DATA :=
  match npdu with
  | pv :: control :: rest =>
      let nd1 := { nd with
        protocol_version := pv,
        network_layer_message := control.testBit 7,
        data_expecting_reply := control.testBit 2,
        priority := control % 4 }
      let destStep :=
        if control.testBit 5 then npdu_decode_addr rest dest
        else ⟨true, 0, 0, dest.map zero_dest, rest⟩
      if destStep.ok then
        let srcStep :=
          if control.testBit 3 then npdu_decode_addr destStep.rest src
          else ⟨true, 0, 0, src.map zero_src, destStep.rest⟩
        if srcStep.ok then
          let len2 := 2 + destStep.consumed + srcStep.consumed
          let hopStep : BACNET_NPDU_DATA × Nat × List Nat :=
            if destStep.net ≠ 0 then
              match srcStep.rest with
              | h :: r => ({ nd1 with hop_count := h }, len2 + 1, r)
              | [] => ({ nd1 with hop_count := 0 }, len2, [])
            else ({ nd1 with hop_count := 0 }, len2, srcStep.rest)
          let msgStep : BACNET_NPDU_DATA × Nat :=
            if hopStep.1.network_layer_message then
              match hopStep.2.2 with
              | t :: r =>
                  let nd2 := { hopStep.1 with network_message_type := t }
                  if t ≥ 128 then
                    match r with
                    | v1 :: v2 :: _ =>
                        ({ nd2 with vendor_id := v1 * 256 + v2 }, hopStep.2.1 + 3)
                    | _ => (nd2, hopStep.2.1 + 1)
                  else (nd2, hopStep.2.1 + 1)
              | [] => (hopStep.1, hopStep.2.1)
            else
              ({ hopStep.1 with network_message_type := NETWORK_MESSAGE_INVALID },
                hopStep.2.1)
          ((msgStep.2 : Int), destStep.addr, srcStep.addr, msgStep.1)
        else (-1, destStep.addr, srcStep.addr, nd1)
      else (-1, destStep.addr, src, nd1)
  | _ => (0, dest, src, nd)

/-! ## Symbolic C floating point

REAL/double values are modelled as exact rationals extended with a NaN
element.  IEEE rounding is not modelled (arithmetic is exact) and the
infinities are collapsed into NaN; none of the settled claims depends on
rounding or on infinities.  Comparisons follow C semantics: every ordered
comparison involving NaN is false, and `islessgreater` (C99 math.h) is the
ordered-and-unequal test. -/

inductive FP where
  | num (q : Rat)
  | nan
deriving DecidableEq

/-- Subtraction with NaN propagation. -/
def FP.sub : FP → FP → FP
  | .num a, .num b => .num (a - b)
  | _, _ => .nan

/-- Multiplication with NaN propagation. -/
def FP.mul : FP → FP → FP
  | .num a, .num b => .num (a * b)
  | _, _ => .nan

/-- Division; NaN propagates, and division by zero (an infinity or NaN in C)
is collapsed to NaN. -/
def FP.div : FP → FP → FP
  | .num a, .num b => if b = 0 then .nan else .num (a / b)
  | _, _ => .nan

/-- C `<=` on floats: false whenever either operand is NaN. -/
def FP.fle : FP → FP → Bool
  | .num a, .num b => decide (a ≤ b)
  | _, _ => false

/-- C99 `islessgreater(x, y)`: true iff the operands are ordered and unequal;
false whenever either operand is NaN. -/
def islessgreater : FP → FP → Bool
  | .num a, .num b => decide (a < b ∨ b < a)
  | _, _ => false

/-! ## Dates and times (bacnet/datetime.h)

datetime.c is not under src/; the representation follows the spec's data
model (section 3: dates as y/m/d/wday with wildcards 0xFF / year 2155, times
as h/m/s/hundredths with wildcards 0xFF) and the operations the Load Control
object calls are modelled from the spec: lexicographic comparison, the
all-wildcard test/set, and adding minutes with calendar carry. -/

structure BACNET_DATE where
  year : Nat
  month : Nat
  day : Nat
  wday : Nat
deriving DecidableEq

structure BACNET_TIME where
  hour : Nat
  min : Nat
  sec : Nat
  hundredths : Nat
deriving DecidableEq

structure BACNET_DATE_TIME where
  date : BACNET_DATE
  time : BACNET_TIME
deriving DecidableEq

/-- Three-way comparison of naturals, the C `-1 / 0 / 1` convention. -/
def cmp3 (a b : Nat) : Int := if a < b then -1 else if b < a then 1 else 0

/-- Modelled from the spec: `datetime_compare_date`, lexicographic on
year, month, day (the weekday is derived data and not compared). -/
def datetime_compare_date (a b : BACNET_DATE) : Int :=
  if cmp3 a.year b.year ≠ 0 then cmp3 a.year b.year
  else if cmp3 a.month b.month ≠ 0 then cmp3 a.month b.month
  else cmp3 a.day b.day

/-- Modelled from the spec: `datetime_compare_time`, lexicographic on
hour, minute, second, hundredths. -/
def datetime_compare_time (a b : BACNET_TIME) : Int :=
  if cmp3 a.hour b.hour ≠ 0 then cmp3 a.hour b.hour
  else if cmp3 a.min b.min ≠ 0 then cmp3 a.min b.min
  else if cmp3 a.sec b.sec ≠ 0 then cmp3 a.sec b.sec
  else cmp3 a.hundredths b.hundredths

/-- Modelled from the spec: `datetime_compare`, date first then time. -/
def datetime_compare (a b : BACNET_DATE_TIME) : Int :=
  if datetime_compare_date a.date b.date ≠ 0 then datetime_compare_date a.date b.date
  else datetime_compare_time a.time b.time

/-- Modelled from the spec: the all-wildcard datetime that
`datetime_wildcard_set` writes (date fields 0xFF, i.e. year 2155, and all
time fields 0xFF). -/
def wildcardDateTime : BACNET_DATE_TIME :=
  { date := { year := 2155, month := 255, day := 255, wday := 255 },
    time := { hour := 255, min := 255, sec := 255, hundredths := 255 } }

/-- Modelled from the spec: `datetime_wildcard`, true iff every date and time
field is the wildcard value. -/
def datetime_wildcard (dt : BACNET_DATE_TIME) : Bool :=
  decide (dt = wildcardDateTime)

/-- Gregorian leap-year rule used for calendar carry. -/
def leap_year (y : Nat) : Bool := y % 4 = 0 ∧ (y % 100 ≠ 0 ∨ y % 400 = 0)

/-- Days in a month (month counted 1..12). -/
def month_length (y m : Nat) : Nat :=
  if m = 2 then (if leap_year y then 29 else 28)
  else if m = 4 ∨ m = 6 ∨ m = 9 ∨ m = 11 then 30
  else 31

/-- Advance a date by one day, cycling the weekday 1..7. -/
def date_next_day (d : BACNET_DATE) : BACNET_DATE :=
  let w := d.wday % 7 + 1
  if d.day < month_length d.year d.month then { d with day := d.day + 1, wday := w }
  else if d.month < 12 then { year := d.year, month := d.month + 1, day := 1, wday := w }
  else { year := d.year + 1, month := 1, day := 1, wday := w }

/-- Advance a date by a number of days. -/
def date_add_days : BACNET_DATE → Nat → BACNET_DATE
  | d, 0 => d
  | d, n + 1 => date_add_days (date_next_day d) n

/-- Modelled from the spec: `datetime_add_minutes` (section 4.4, "Compute
`end_time = start_time + shed_duration_minutes`"), carrying whole days into
the date. -/
def datetime_add_minutes (dt : BACNET_DATE_TIME) (minutes : Nat) : BACNET_DATE_TIME :=
  let total := dt.time.hour * 60 + dt.time.min + minutes
  { date := date_add_days dt.date (total / 1440),
    time := { dt.time with hour := total % 1440 / 60, min := total % 60 } }

/-! ## Load Control object (src/bacnet/basic/object/lc.c) -/

/-- Number of demo objects (`MAX_LOAD_CONTROLS`). -/
def MAX_LOAD_CONTROLS : Nat := 4

/-- `MAX_SHED_LEVELS`. -/
def MAX_SHED_LEVELS : Nat := 3

/-- BACNET_SHED_LEVEL: the C tagged union `{type, {level | percent | amount}}`
as a sum type. -/
inductive BACNET_SHED_LEVEL where
  | percent (value : Nat)
  | level (value : Nat)
  | amount (value : FP)
deriving DecidableEq

/-- `DEFAULT_VALUE_PERCENT`. -/
def DEFAULT_VALUE_PERCENT : Nat := 100

/-- `DEFAULT_VALUE_LEVEL`. -/
def DEFAULT_VALUE_LEVEL : Nat := 0

/-- LOAD_CONTROL_STATE (lc.c lines 349-355). -/
inductive LOAD_CONTROL_STATE where
  | SHED_INACTIVE
  | SHED_REQUEST_PENDING
  | SHED_NON_COMPLIANT
  | SHED_COMPLIANT
deriving DecidableEq

/-- The file-scope static state of lc.c that the state machine and the
property-write entry point read and write.  The per-instance C arrays
(indexed 0..MAX_LOAD_CONTROLS-1) are modelled as functions from `Nat`. -/
structure LCState where
  Requested_Shed_Level : Nat → BACNET_SHED_LEVEL
  Expected_Shed_Level : Nat → BACNET_SHED_LEVEL
  Actual_Shed_Level : Nat → BACNET_SHED_LEVEL
  Start_Time : Nat → BACNET_DATE_TIME
  End_Time : Nat → BACNET_DATE_TIME
  Current_Time : BACNET_DATE_TIME
  Shed_Duration : Nat → Nat
  Duty_Window : Nat → Nat
  Load_Control_Enable : Nat → Bool
  Full_Duty_Baseline : Nat → FP
  Shed_Levels : Nat → Nat → Nat
  Load_Control_Request_Written : Nat → Bool
  Start_Time_Property_Written : Nat → Bool
  Load_Control_State : Nat → LOAD_CONTROL_STATE

/-- Shed_Level_Values (lc.c line 112): `{ 90.0, 80.0, 70.0 }`. -/
def Shed_Level_Values (i : Nat) : FP :=
  [FP.num 90, FP.num 80, FP.num 70].getD i (FP.num 0)

/-- The read-only face of the sibling Analog Output object (external
collaborator; spec section 6): present value and commanding priority per
instance. -/
structure AOEnv where
  pv : Nat → FP
  prio : Nat → Nat

/-- A command issued to the Analog Output collaborator during one tick. -/
inductive AO_Action where
  | set (instance_ : Nat) (value : FP) (priority : Nat)
  | relinquish (instance_ : Nat) (priority : Nat)
deriving DecidableEq

/-- Load_Control_Instance_To_Index (lc.c lines 206-215). -/
def Load_Control_Instance_To_Index (object_instance : Nat) : Nat :=
  if object_instance < MAX_LOAD_CONTROLS then object_instance else MAX_LOAD_CONTROLS

/-- Requested_Shed_Level_Value (lc.c lines 253-284): derive the Analog Output
level from the requested shed level.  The LEVEL case mirrors the C loop that
keeps the last index whose configured shed level is ≤ the request. -/
def Requested_Shed_Level_Value (σ : LCState) (object_index : Nat) : FP :=
  match σ.Requested_Shed_Level object_index with
  | .percent p => .num p
  | .amount a =>
      FP.mul
        (FP.div (FP.sub (σ.Full_Duty_Baseline object_index) a)
          (σ.Full_Duty_Baseline object_index))
        (.num 100)
  | .level l =>
      let shed_level_index :=
        (List.range MAX_SHED_LEVELS).foldl
          (fun acc i => if σ.Shed_Levels object_index i ≤ l then i else acc) 0
      Shed_Level_Values shed_level_index

/-- Shed_Level_Default_Set (lc.c lines 305-323): the default value for the
given subtype (the C function takes the type tag; here the tag is carried by
the argument's constructor). -/
def Shed_Level_Default_Set : BACNET_SHED_LEVEL → BACNET_SHED_LEVEL
  | .percent _ => .percent 100
  | .level _ => .level 0
  | .amount _ => .amount (.num 0)

/-- Able_To_Meet_Shed_Request (lc.c lines 325-347). -/
def Able_To_Meet_Shed_Request (env : AOEnv) (σ : LCState) (object_index : Nat) :
    Bool :=
  let priority := env.prio object_index
  if priority ≥ 4 then
    let requested_level := Requested_Shed_Level_Value σ object_index
    let level := env.pv object_index
    FP.fle requested_level level
  else false

/-- Overwrite one instance's machine state. -/
def setLCState (σ : LCState) (i : Nat) (s : LOAD_CONTROL_STATE) : LCState :=
  { σ with Load_Control_State := (Function.update σ.Load_Control_State i s) }

/-- Overwrite one instance's expected shed level. -/
def setExpected (σ : LCState) (i : Nat) (v : BACNET_SHED_LEVEL) : LCState :=
  { σ with Expected_Shed_Level := (Function.update σ.Expected_Shed_Level i v) }

/-- Overwrite one instance's actual shed level. -/
def setActual (σ : LCState) (i : Nat) (v : BACNET_SHED_LEVEL) : LCState :=
  { σ with Actual_Shed_Level := (Function.update σ.Actual_Shed_Level i v) }

/-- Overwrite one instance's end time. -/
def setEndTime (σ : LCState) (i : Nat) (v : BACNET_DATE_TIME) : LCState :=
  { σ with End_Time := (Function.update σ.End_Time i v) }

/-- Overwrite one instance's start time. -/
def setStartTime (σ : LCState) (i : Nat) (v : BACNET_DATE_TIME) : LCState :=
  { σ with Start_Time := (Function.update σ.Start_Time i v) }

/-- Overwrite one instance's request-written flag. -/
def setReqWritten (σ : LCState) (i : Nat) (b : Bool) : LCState :=
  { σ with Load_Control_Request_Written :=
      (Function.update σ.Load_Control_Request_Written i b) }

/-- Overwrite one instance's start-time-written flag. -/
def setStartWritten (σ : LCState) (i : Nat) (b : Bool) : LCState :=
  { σ with Start_Time_Property_Written :=
      (Function.update σ.Start_Time_Property_Written i b) }

/-- The `datetime_copy` plus `datetime_add_minutes` prologue shared by the
pending, non-compliant and compliant cases:
`End_Time[i] := Start_Time[i] + Shed_Duration[i] minutes`. -/
def computeEndTime (σ : LCState) (i : Nat) : LCState :=
  setEndTime σ i (datetime_add_minutes (σ.Start_Time i) (σ.Shed_Duration i))

/-- SHED_REQUEST_PENDING case of Load_Control_State_Machine (lc.c lines
386-481).  The C `break` statements become early returns; the tuple's second
component is the list of Analog Output commands issued during the tick. -/
def lcRequestPending (env : AOEnv) (object_index : Nat) (σ : LCState) :
    LCState × List AO_Action :=
  let step1 : LCState × Bool :=
    if σ.Load_Control_Request_Written object_index then
      let σ1 := setReqWritten σ object_index false
      let σ2 :=
        match σ1.Requested_Shed_Level object_index with
        | .percent p =>
            if p = DEFAULT_VALUE_PERCENT then setLCState σ1 object_index .SHED_INACTIVE
            else σ1
        | .amount a =>
            if FP.fle a (.num 0) then setLCState σ1 object_index .SHED_INACTIVE
            else σ1
        | .level l =>
            if l = DEFAULT_VALUE_LEVEL then setLCState σ1 object_index .SHED_INACTIVE
            else σ1
      (σ2, decide (σ2.Load_Control_State object_index = .SHED_INACTIVE))
    else (σ, false)
  if step1.2 then (step1.1, [])
  else
    let σa := step1.1
    let step2 : LCState × Bool :=
      if σa.Start_Time_Property_Written object_index then
        let σ1 := setStartWritten σa object_index false
        if datetime_wildcard (σ1.Start_Time object_index) then
          (setLCState σ1 object_index .SHED_INACTIVE, true)
        else (σ1, false)
      else (σa, false)
    if step2.2 then (step2.1, [])
    else
      let σe := computeEndTime step2.1 object_index
      if datetime_compare (σe.End_Time object_index) σe.Current_Time < 0 then
        (setLCState σe object_index .SHED_INACTIVE, [])
      else
        let diff := datetime_compare σe.Current_Time (σe.Start_Time object_index)
        if diff < 0 then
          let σ3 := setExpected σe object_index (σe.Requested_Shed_Level object_index)
          (setActual σ3 object_index
            (Shed_Level_Default_Set (σ3.Requested_Shed_Level object_index)), [])
        else if diff > 0 then
          if Able_To_Meet_Shed_Request env σe object_index then
            let σ3 := setExpected σe object_index (σe.Requested_Shed_Level object_index)
            let act := AO_Action.set object_index
              (Requested_Shed_Level_Value σ3 object_index) 4
            let σ4 := setActual σ3 object_index (σ3.Requested_Shed_Level object_index)
            (setLCState σ4 object_index .SHED_COMPLIANT, [act])
          else
            let σ3 := setExpected σe object_index
              (Shed_Level_Default_Set (σe.Requested_Shed_Level object_index))
            let σ4 := setActual σ3 object_index
              (Shed_Level_Default_Set (σ3.Requested_Shed_Level object_index))
            (setLCState σ4 object_index .SHED_NON_COMPLIANT, [])
        else (σe, [])

/-- SHED_NON_COMPLIANT case of Load_Control_State_Machine (lc.c lines
482-522). -/
def lcNonCompliant (env : AOEnv) (object_index : Nat) (σ : LCState) :
    LCState × List AO_Action :=
  let σe := computeEndTime σ object_index
  if datetime_compare (σe.End_Time object_index) σe.Current_Time < 0 then
    (setLCState σe object_index .SHED_INACTIVE, [])
  else if σe.Load_Control_Request_Written object_index ∨
      σe.Start_Time_Property_Written object_index then
    (setLCState σe object_index .SHED_REQUEST_PENDING, [])
  else if Able_To_Meet_Shed_Request env σe object_index then
    let σ3 := setExpected σe object_index (σe.Requested_Shed_Level object_index)
    let act := AO_Action.set object_index
      (Requested_Shed_Level_Value σ3 object_index) 4
    let σ4 := setActual σ3 object_index (σ3.Requested_Shed_Level object_index)
    (setLCState σ4 object_index .SHED_COMPLIANT, [act])
  else (σe, [])

/-- SHED_COMPLIANT case of Load_Control_State_Machine (lc.c lines 523-563).
Note the finished-shed branch: the C resets `Start_Time[i]` where `i` is the
function's loop-counter local, initialised to 0 and never changed, rather
than `Start_Time[object_index]`; the model reproduces that index-0 write. -/
def lcCompliant (env : AOEnv) (object_index : Nat) (σ : LCState) :
    LCState × List AO_Action :=
  let σe := computeEndTime σ object_index
  if datetime_compare (σe.End_Time object_index) σe.Current_Time < 0 then
    let σ2 := setStartTime σe 0 wildcardDateTime
    (setLCState σ2 object_index .SHED_INACTIVE, [AO_Action.relinquish object_index 4])
  else if σe.Load_Control_Request_Written object_index ∨
      σe.Start_Time_Property_Written object_index then
    (setLCState σe object_index .SHED_REQUEST_PENDING, [])
  else if ¬ Able_To_Meet_Shed_Request env σe object_index then
    let σ3 := setExpected σe object_index
      (Shed_Level_Default_Set (σe.Requested_Shed_Level object_index))
    let σ4 := setActual σ3 object_index
      (Shed_Level_Default_Set (σ3.Requested_Shed_Level object_index))
    (setLCState σ4 object_index .SHED_NON_COMPLIANT, [])
  else (σe, [])

/-- SHED_INACTIVE (and C `default`) case of Load_Control_State_Machine
(lc.c lines 564-577); the written flag is cleared later, in the next state. -/
def lcInactive (object_index : Nat) (σ : LCState) : LCState × List AO_Action :=
  if σ.Start_Time_Property_Written object_index then
    let σ1 := setExpected σ object_index (σ.Requested_Shed_Level object_index)
    let σ2 := setActual σ1 object_index
      (Shed_Level_Default_Set (σ1.Requested_Shed_Level object_index))
    (setLCState σ2 object_index .SHED_REQUEST_PENDING, [])
  else (σ, [])

/-- Load_Control_State_Machine (lc.c lines 374-581): one tick for one
instance.  A disabled instance is forced to SHED_INACTIVE and the function
returns at once. -/
def Load_Control_State_Machine (env : AOEnv) (object_index : Nat) (σ : LCState) :
    LCState × List AO_Action :=
  if ¬ σ.Load_Control_Enable object_index then
    (setLCState σ object_index .SHED_INACTIVE, [])
  else
    match σ.Load_Control_State object_index with
    | .SHED_REQUEST_PENDING => lcRequestPending env object_index σ
    | .SHED_NON_COMPLIANT => lcNonCompliant env object_index σ
    | .SHED_COMPLIANT => lcCompliant env object_index σ
    | .SHED_INACTIVE => lcInactive object_index σ

/-- Load_Control_Init (lc.c lines 143-171) as the initial state value. -/
def Load_Control_Init : LCState :=
  { Requested_Shed_Level := fun _ => .level 0,
    Expected_Shed_Level := fun _ => .level 0,
    Actual_Shed_Level := fun _ => .level 0,
    Start_Time := fun _ => wildcardDateTime,
    End_Time := fun _ => wildcardDateTime,
    Current_Time := wildcardDateTime,
    Shed_Duration := fun _ => 0,
    Duty_Window := fun _ => 0,
    Load_Control_Enable := fun _ => true,
    Full_Duty_Baseline := fun _ => .num (3 / 2),
    Shed_Levels := fun _ j => j + 1,
    Load_Control_Request_Written := fun _ => false,
    Start_Time_Property_Written := fun _ => false,
    Load_Control_State := fun _ => .SHED_INACTIVE }

/-! ## Tagged application values (bacapp part of the translation unit)

Tag numbers and property/error identifiers come from bacenum.h, which is not
under src/; the application tag numbers are pinned down by the spec's wire
examples (unsigned `0` encodes as `21 00`, real as `44 ...`, date as `A4 ...`,
object-id as `C4 ...`), the remaining identifiers carry the standard BACnet
values.  Only their distinctness matters to the claims. -/

def BACNET_APPLICATION_TAG_NULL : Nat := 0
def BACNET_APPLICATION_TAG_BOOLEAN : Nat := 1
def BACNET_APPLICATION_TAG_UNSIGNED_INT : Nat := 2
def BACNET_APPLICATION_TAG_SIGNED_INT : Nat := 3
def BACNET_APPLICATION_TAG_REAL : Nat := 4
def BACNET_APPLICATION_TAG_DOUBLE : Nat := 5
def BACNET_APPLICATION_TAG_OCTET_STRING : Nat := 6
def BACNET_APPLICATION_TAG_CHARACTER_STRING : Nat := 7
def BACNET_APPLICATION_TAG_BIT_STRING : Nat := 8
def BACNET_APPLICATION_TAG_ENUMERATED : Nat := 9
def BACNET_APPLICATION_TAG_DATE : Nat := 10
def BACNET_APPLICATION_TAG_TIME : Nat := 11
def BACNET_APPLICATION_TAG_OBJECT_ID : Nat := 12

/-- Sentinel "no such application tag" marker. -/
def MAX_BACNET_APPLICATION_TAG : Nat := 41

def PROP_ACTUAL_SHED_LEVEL : Nat := 212
def PROP_DUTY_WINDOW : Nat := 213
def PROP_EXPECTED_SHED_LEVEL : Nat := 214
def PROP_FULL_DUTY_BASELINE : Nat := 215
def PROP_REQUESTED_SHED_LEVEL : Nat := 218
def PROP_SHED_DURATION : Nat := 219
def PROP_SHED_LEVEL_DESCRIPTIONS : Nat := 220
def PROP_SHED_LEVELS : Nat := 221
def PROP_START_TIME : Nat := 142
def PROP_ENABLE : Nat := 133

def ERROR_CLASS_PROPERTY : Nat := 2
def ERROR_CODE_OTHER : Nat := 0
def ERROR_CODE_INVALID_DATA_TYPE : Nat := 9
def ERROR_CODE_VALUE_OUT_OF_RANGE : Nat := 37
def ERROR_CODE_WRITE_ACCESS_DENIED : Nat := 40
def ERROR_CODE_PROPERTY_IS_NOT_AN_ARRAY : Nat := 50

/-- BACNET_TAG from bacdcode.h. -/
structure BACNET_TAG where
  number : Nat
  application : Bool
  context : Bool
  opening : Bool
  closing : Bool
  len_value_type : Nat
deriving DecidableEq

/-- The zeroed tag returned together with a consumed length of 0 on a
truncated tag header. -/
def noTag : BACNET_TAG :=
  { number := 0, application := false, context := false,
    opening := false, closing := false, len_value_type := 0 }

/-- Modelled from the spec: `bacnet_tag_decode` from bacdcode.c (not under
src), following spec section 4.1: the leading octet packs
`(tag_number[4], class[1], length_value_type[3])`; tag number 0xF escalates
to an extended-number octet; a length/value/type of 5 escalates to an
extended length octet where 254 and 255 escalate further to 16- and 32-bit
lengths; 6 and 7 denote opening and closing brackets.  Returns the number of
octets consumed (0 on truncation) and the tag. -/
def bacnet_tag_decode (apdu : List Nat) : Nat × BACNET_TAG :=
  match apdu with
  | o :: rest =>
      let cls := o.testBit 3
      let numStep : Option (Nat × Nat × List Nat) :=
        if o / 16 % 16 = 15 then
          match rest with
          | e :: r => some (e, 2, r)
          | [] => none
        else some (o / 16 % 16, 1, rest)
      match numStep with
      | none => (0, noTag)
      | some (num, len1, rest1) =>
          let lvt := o % 8
          if lvt = 6 then
            (len1, { number := num, application := false, context := cls,
                     opening := true, closing := false, len_value_type := 0 })
          else if lvt = 7 then
            (len1, { number := num, application := false, context := cls,
                     opening := false, closing := true, len_value_type := 0 })
          else if lvt = 5 then
            match rest1 with
            | l1 :: r2 =>
                if l1 < 254 then
                  (len1 + 1, { number := num, application := !cls, context := cls,
                               opening := false, closing := false, len_value_type := l1 })
                else if l1 = 254 then
                  match r2 with
                  | a :: b :: _ =>
                      (len1 + 3, { number := num, application := !cls, context := cls,
                                   opening := false, closing := false,
                                   len_value_type := a * 256 + b })
                  | _ => (0, noTag)
                else
                  match r2 with
                  | a :: b :: c :: d :: _ =>
                      (len1 + 5, { number := num, application := !cls, context := cls,
                                   opening := false, closing := false,
                                   len_value_type := ((a * 256 + b) * 256 + c) * 256 + d })
                  | _ => (0, noTag)
            | [] => (0, noTag)
          else
            (len1, { number := num, application := !cls, context := cls,
                     opening := false, closing := false, len_value_type := lvt })
  | [] => (0, noTag)

/-- BACNET_APPLICATION_DATA_VALUE: the C struct holds a tag, context
discriminators and a union; the union is modelled as one field per modelled
member (the code only ever reads the member matching the tag it checked).
String, bit-string and the compile-time-optional complex members are not
modelled; no settled claim exercises them. -/
structure BACNET_APPLICATION_DATA_VALUE where
  tag : Nat
  context_specific : Bool
  context_tag : Nat
  Boolean : Bool
  Unsigned_Int : Nat
  Signed_Int : Int
  Real : FP
  Double : FP
  Enumerated : Nat
  Date : BACNET_DATE
  Time : BACNET_TIME
  Object_Type : Nat
  Object_Instance : Nat
deriving DecidableEq

/-- The stack value `BACNET_APPLICATION_DATA_VALUE value;` is uninitialised
in the C caller; it is modelled as zeroed (the code paths the claims settle
never read a member before writing it, except through this default). -/
def emptyValue : BACNET_APPLICATION_DATA_VALUE :=
  { tag := 0, context_specific := false, context_tag := 0, Boolean := false,
    Unsigned_Int := 0, Signed_Int := 0, Real := .num 0, Double := .num 0,
    Enumerated := 0, Date := { year := 0, month := 0, day := 0, wday := 0 },
    Time := { hour := 0, min := 0, sec := 0, hundredths := 0 },
    Object_Type := 0, Object_Instance := 0 }

/-- decode_boolean from bacdcode.c: the tag's length/value field is the value. -/
def decode_boolean (len_value : Nat) : Bool := len_value ≠ 0

/-- Modelled from the spec: `bacnet_unsigned_decode` from bacint.c,
minimum-byte big-endian unsigned of 0..8 octets; yields `none` (C length 0)
when the declared length exceeds eight octets or the buffer. -/
def bacnet_unsigned_decode (apdu : List Nat) (len_value : Nat) : Option Nat :=
  if len_value ≤ 8 ∧ len_value ≤ apdu.length then
    some ((apdu.take len_value).foldl (fun acc b => acc * 256 + b) 0)
  else none

/-- Modelled from the spec: `bacnet_signed_decode` from bacint.c, big-endian
two's-complement of 1..4 octets. -/
def bacnet_signed_decode (apdu : List Nat) (len_value : Nat) : Option Int :=
  if 1 ≤ len_value ∧ len_value ≤ 4 ∧ len_value ≤ apdu.length then
    let raw : Nat := (apdu.take len_value).foldl (fun acc b => acc * 256 + b) 0
    some (if raw < 2 ^ (8 * len_value - 1) then (raw : Int)
          else (raw : Int) - (2 ^ (8 * len_value) : Int))
  else none

/-- Modelled from the spec: `bacnet_enumerated_decode`, an unsigned of at
most four octets. -/
def bacnet_enumerated_decode (apdu : List Nat) (len_value : Nat) : Option Nat :=
  if len_value ≤ 4 ∧ len_value ≤ apdu.length then
    some ((apdu.take len_value).foldl (fun acc b => acc * 256 + b) 0)
  else none

/-- Value of an IEEE-754 bit pattern with the given exponent and fraction
field widths, as an `FP` (NaN and the infinities both become `FP.nan`). -/
def ieee_decode (word expBits fracBits : Nat) : FP :=
  let frac := word % 2 ^ fracBits
  let exp := word / 2 ^ fracBits % 2 ^ expBits
  let sign := word / 2 ^ (fracBits + expBits) % 2
  let bias : Int := 2 ^ (expBits - 1) - 1
  if exp = 2 ^ expBits - 1 then FP.nan
  else
    let mag : Rat :=
      if exp = 0 then (frac : Rat) * (2 : Rat) ^ (1 - bias - (fracBits : Int))
      else
        ((2 ^ fracBits + frac : Nat) : Rat) *
          (2 : Rat) ^ ((exp : Int) - bias - (fracBits : Int))
    FP.num (if sign = 1 then -mag else mag)

/-- Modelled from the spec: `bacnet_real_decode` from bacreal.c, a big-endian
IEEE-754 single of exactly four octets. -/
def bacnet_real_decode (apdu : List Nat) (len_value : Nat) : Option FP :=
  match apdu, len_value with
  | b0 :: b1 :: b2 :: b3 :: _, 4 =>
      some (ieee_decode (((b0 * 256 + b1) * 256 + b2) * 256 + b3) 8 23)
  | _, _ => none

/-- Modelled from the spec: `bacnet_double_decode`, a big-endian IEEE-754
double of exactly eight octets. -/
def bacnet_double_decode (apdu : List Nat) (len_value : Nat) : Option FP :=
  match apdu, len_value with
  | b0 :: b1 :: b2 :: b3 :: b4 :: b5 :: b6 :: b7 :: _, 8 =>
      some (ieee_decode
        (((((((b0 * 256 + b1) * 256 + b2) * 256 + b3) * 256 + b4) * 256 + b5) * 256
            + b6) * 256 + b7) 11 52)
  | _, _ => none

/-- Modelled from the spec: `bacnet_date_decode`, four octets
`{year-1900, month, day, weekday}`. -/
def bacnet_date_decode (apdu : List Nat) (len_value : Nat) : Option BACNET_DATE :=
  match apdu, len_value with
  | y :: m :: d :: w :: _, 4 =>
      some { year := y + 1900, month := m, day := d, wday := w }
  | _, _ => none

/-- Modelled from the spec: `bacnet_time_decode`, four octets
`{hour, minute, second, hundredths}`. -/
def bacnet_time_decode (apdu : List Nat) (len_value : Nat) : Option BACNET_TIME :=
  match apdu, len_value with
  | h :: m :: s :: hh :: _, 4 =>
      some { hour := h, min := m, sec := s, hundredths := hh }
  | _, _ => none

/-- Modelled from the spec: `bacnet_object_id_decode`, a 32-bit big-endian
word with the object type in the top 10 bits and the instance in the low 22. -/
def bacnet_object_id_decode (apdu : List Nat) (len_value : Nat) : Option (Nat × Nat) :=
  match apdu, len_value with
  | b0 :: b1 :: b2 :: b3 :: _, 4 =>
      let word := ((b0 * 256 + b1) * 256 + b2) * 256 + b3
      some (word / 2 ^ 22, word % 2 ^ 22)
  | _, _ => none

/-- bacapp_data_decode (lc.c translation unit lines 1380-1589), restricted to
the primitive variants modelled here; the unmodelled variants fall to the C
`default: break` behaviour.  A consumed length of 0 for any type other than
NULL, BOOLEAN or OCTET_STRING marks the value with
`MAX_BACNET_APPLICATION_TAG`, exactly as the source's trailing check does. -/
def bacapp_data_decode (apdu : List Nat) (tag_data_type len_value_type : Nat)
    (value : BACNET_APPLICATION_DATA_VALUE) :
    Int × BACNET_APPLICATION_DATA_VALUE :=
  let step : Nat × BACNET_APPLICATION_DATA_VALUE :=
    if tag_data_type = BACNET_APPLICATION_TAG_NULL then (0, value)
    else if tag_data_type = BACNET_APPLICATION_TAG_BOOLEAN then
      (0, { value with Boolean := decode_boolean len_value_type })
    else if tag_data_type = BACNET_APPLICATION_TAG_UNSIGNED_INT then
      match bacnet_unsigned_decode apdu len_value_type with
      | some v => (len_value_type, { value with Unsigned_Int := v })
      | none => (0, value)
    else if tag_data_type = BACNET_APPLICATION_TAG_SIGNED_INT then
      match bacnet_signed_decode apdu len_value_type with
      | some v => (len_value_type, { value with Signed_Int := v })
      | none => (0, value)
    else if tag_data_type = BACNET_APPLICATION_TAG_REAL then
      match bacnet_real_decode apdu len_value_type with
      | some v => (4, { value with Real := v })
      | none => (0, value)
    else if tag_data_type = BACNET_APPLICATION_TAG_DOUBLE then
      match bacnet_double_decode apdu len_value_type with
      | some v => (8, { value with Double := v })
      | none => (0, value)
    else if tag_data_type = BACNET_APPLICATION_TAG_ENUMERATED then
      match bacnet_enumerated_decode apdu len_value_type with
      | some v => (len_value_type, { value with Enumerated := v })
      | none => (0, value)
    else if tag_data_type = BACNET_APPLICATION_TAG_DATE then
      match bacnet_date_decode apdu len_value_type with
      | some v => (4, { value with Date := v })
      | none => (0, value)
    else if tag_data_type = BACNET_APPLICATION_TAG_TIME then
      match bacnet_time_decode apdu len_value_type with
      | some v => (4, { value with Time := v })
      | none => (0, value)
    else if tag_data_type = BACNET_APPLICATION_TAG_OBJECT_ID then
      match bacnet_object_id_decode apdu len_value_type with
      | some v => (4, { value with Object_Type := v.1, Object_Instance := v.2 })
      | none => (0, value)
    else (0, value)
  if step.1 = 0 ∧ tag_data_type ≠ BACNET_APPLICATION_TAG_NULL ∧
      tag_data_type ≠ BACNET_APPLICATION_TAG_BOOLEAN ∧
      tag_data_type ≠ BACNET_APPLICATION_TAG_OCTET_STRING then
    ((step.1 : Int), { step.2 with tag := MAX_BACNET_APPLICATION_TAG })
  else ((step.1 : Int), step.2)

/-- bacapp_decode_application_data (lc.c translation unit lines 1622-1651).
A leading tag that is not an application tag — in particular any
context-specific tag — yields `BACNET_STATUS_ERROR`. -/
def bacapp_decode_application_data (apdu : List Nat)
    (value : BACNET_APPLICATION_DATA_VALUE) :
    Int × BACNET_APPLICATION_DATA_VALUE :=
  let tagStep := bacnet_tag_decode apdu
  let len := tagStep.1
  let tag := tagStep.2
  if len > 0 ∧ tag.application then
    let value1 := { value with context_specific := false, tag := tag.number }
    let dataStep :=
      bacapp_data_decode (apdu.drop len) tag.number tag.len_value_type value1
    if dataStep.1 ≥ 0 ∧ dataStep.2.tag ≠ MAX_BACNET_APPLICATION_TAG then
      ((len : Int) + dataStep.1, dataStep.2)
    else (BACNET_STATUS_ERROR, dataStep.2)
  else if apdu.length > 0 then (BACNET_STATUS_ERROR, value)
  else (0, value)

/-- bacapp_context_tag_type (lc.c translation unit lines 1988-2287),
restricted to the BACnetShedLevel properties reachable from the embedded
Load Control object; the other property cases of the source switch are
omitted and fall to the `MAX_BACNET_APPLICATION_TAG` default. -/
def bacapp_context_tag_type (property tag_number : Nat) : Nat :=
  if property = PROP_ACTUAL_SHED_LEVEL ∨ property = PROP_REQUESTED_SHED_LEVEL ∨
      property = PROP_EXPECTED_SHED_LEVEL then
    if tag_number = 0 ∨ tag_number = 1 then BACNET_APPLICATION_TAG_UNSIGNED_INT
    else if tag_number = 2 then BACNET_APPLICATION_TAG_REAL
    else MAX_BACNET_APPLICATION_TAG
  else MAX_BACNET_APPLICATION_TAG

/-- bacapp_decode_context_data (lc.c translation unit lines 2322-2367). -/
def bacapp_decode_context_data (apdu : List Nat)
    (value : BACNET_APPLICATION_DATA_VALUE) (property : Nat) :
    Int × BACNET_APPLICATION_DATA_VALUE :=
  let tagStep := bacnet_tag_decode apdu
  let len := tagStep.1
  let tag := tagStep.2
  if len > 0 then
    if tag.closing then (0, value)
    else if tag.context then
      let ctype := bacapp_context_tag_type property tag.number
      let value1 :=
        { value with context_specific := true, context_tag := tag.number, tag := ctype }
      if value1.tag ≠ MAX_BACNET_APPLICATION_TAG then
        let dataStep :=
          bacapp_data_decode (apdu.drop len) value1.tag tag.len_value_type value1
        if dataStep.1 ≥ 0 ∧ dataStep.2.tag ≠ MAX_BACNET_APPLICATION_TAG then
          ((len : Int) + dataStep.1, dataStep.2)
        else (BACNET_STATUS_ERROR, dataStep.2)
      else if tag.len_value_type ≠ 0 then
        ((len : Int) + (tag.len_value_type : Int), value1)
      else (BACNET_STATUS_ERROR, value1)
    else (0, value)
  else (0, value)

/-- bacapp_same_value (lc.c translation unit lines 4523-4754), restricted to
the modelled variants; the tags compared but not modelled here answer false
exactly like the source's `default` arm.  REAL and double members are
compared with `!islessgreater`, every other member with plain equality. -/
def bacapp_same_value (value test_value : BACNET_APPLICATION_DATA_VALUE) : Bool :=
  if test_value.tag = value.tag then
    if test_value.tag = BACNET_APPLICATION_TAG_NULL then true
    else if test_value.tag = BACNET_APPLICATION_TAG_BOOLEAN then
      decide (test_value.Boolean = value.Boolean)
    else if test_value.tag = BACNET_APPLICATION_TAG_UNSIGNED_INT then
      decide (test_value.Unsigned_Int = value.Unsigned_Int)
    else if test_value.tag = BACNET_APPLICATION_TAG_SIGNED_INT then
      decide (test_value.Signed_Int = value.Signed_Int)
    else if test_value.tag = BACNET_APPLICATION_TAG_REAL then
      ! islessgreater test_value.Real value.Real
    else if test_value.tag = BACNET_APPLICATION_TAG_DOUBLE then
      ! islessgreater test_value.Double value.Double
    else if test_value.tag = BACNET_APPLICATION_TAG_ENUMERATED then
      decide (test_value.Enumerated = value.Enumerated)
    else if test_value.tag = BACNET_APPLICATION_TAG_DATE then
      decide (datetime_compare_date test_value.Date value.Date = 0)
    else if test_value.tag = BACNET_APPLICATION_TAG_TIME then
      decide (datetime_compare_time test_value.Time value.Time = 0)
    else if test_value.tag = BACNET_APPLICATION_TAG_OBJECT_ID then
      decide (test_value.Object_Type = value.Object_Type ∧
        test_value.Object_Instance = value.Object_Instance)
    else false
  else false

/-! ## Property write entry point -/

/-- BACNET_WRITE_PROPERTY_DATA (bacnet/wp.h): the request fields the Load
Control write handler reads, plus the error out-fields it sets. -/
structure BACNET_WRITE_PROPERTY_DATA where
  object_instance : Nat
  object_property : Nat
  array_index : Nat
  application_data : List Nat
  error_class : Nat
  error_code : Nat
deriving DecidableEq

/-- Modelled from the spec: `write_property_type_valid` from the services
helpers (not under src): accept iff the decoded application tag matches the
expectation, otherwise set INVALID_DATA_TYPE on the request. -/
def write_property_type_valid (wp : BACNET_WRITE_PROPERTY_DATA)
    (value : BACNET_APPLICATION_DATA_VALUE) (expected_tag : Nat) :
    Bool × BACNET_WRITE_PROPERTY_DATA :=
  if value.tag = expected_tag then (true, wp)
  else
    (false, { wp with error_class := ERROR_CLASS_PROPERTY,
                      error_code := ERROR_CODE_INVALID_DATA_TYPE })

/-- Overwrite one instance's requested shed level. -/
def setRequested (σ : LCState) (i : Nat) (v : BACNET_SHED_LEVEL) : LCState :=
  { σ with Requested_Shed_Level := (Function.update σ.Requested_Shed_Level i v) }

/-- Load_Control_Write_Property (lc.c lines 836-1015).  Returns the C status
together with the final object state and the final request struct (whose
error fields the failure paths set).  The request is first decoded as
application data; a negative result returns VALUE_OUT_OF_RANGE before
anything else, then the array-option check runs before the property switch. -/
def Load_Control_Write_Property (σ : LCState) (wp : BACNET_WRITE_PROPERTY_DATA) :
    Bool × LCState × BACNET_WRITE_PROPERTY_DATA :=
  let dec := bacapp_decode_application_data wp.application_data emptyValue
  let len := dec.1
  let value := dec.2
  if len < 0 then
    (false, σ, { wp with error_class := ERROR_CLASS_PROPERTY,
                         error_code := ERROR_CODE_VALUE_OUT_OF_RANGE })
  else if wp.object_property ≠ PROP_SHED_LEVELS ∧ wp.array_index ≠ BACNET_ARRAY_ALL then
    (false, σ, { wp with error_class := ERROR_CLASS_PROPERTY,
                         error_code := ERROR_CODE_PROPERTY_IS_NOT_AN_ARRAY })
  else
    let object_index := Load_Control_Instance_To_Index wp.object_instance
    if wp.object_property = PROP_REQUESTED_SHED_LEVEL then
      let dec2 :=
        bacapp_decode_context_data wp.application_data value PROP_REQUESTED_SHED_LEVEL
      let v2 := dec2.2
      if dec2.1 = BACNET_STATUS_ERROR then
        (false, σ, { wp with error_class := ERROR_CLASS_PROPERTY,
                             error_code := ERROR_CODE_INVALID_DATA_TYPE })
      else if v2.context_tag = 0 then
        (true, setReqWritten (setRequested σ object_index (.percent v2.Unsigned_Int))
          object_index true, wp)
      else if v2.context_tag = 1 then
        (true, setReqWritten (setRequested σ object_index (.level v2.Unsigned_Int))
          object_index true, wp)
      else if v2.context_tag = 2 then
        (true, setReqWritten (setRequested σ object_index (.amount v2.Real))
          object_index true, wp)
      else
        (false, σ, { wp with error_class := ERROR_CLASS_PROPERTY,
                             error_code := ERROR_CODE_INVALID_DATA_TYPE })
    else if wp.object_property = PROP_START_TIME then
      let tv := write_property_type_valid wp value BACNET_APPLICATION_TAG_DATE
      if tv.1 then
        let start_date := value.Date
        let dec2 :=
          bacapp_decode_application_data (wp.application_data.drop len.toNat) value
        if dec2.1 ≠ 0 then
          let tv2 := write_property_type_valid wp dec2.2 BACNET_APPLICATION_TAG_TIME
          if tv2.1 then
            (true,
              setStartWritten
                (setStartTime σ object_index { date := start_date, time := dec2.2.Time })
                object_index true,
              tv2.2)
          else (false, σ, tv2.2)
        else
          (false, σ, { wp with error_class := ERROR_CLASS_PROPERTY,
                               error_code := ERROR_CODE_VALUE_OUT_OF_RANGE })
      else (false, σ, tv.2)
    else if wp.object_property = PROP_SHED_DURATION then
      let tv := write_property_type_valid wp value BACNET_APPLICATION_TAG_UNSIGNED_INT
      if tv.1 then
        (true,
          setReqWritten
            { σ with Shed_Duration :=
                (Function.update σ.Shed_Duration object_index value.Unsigned_Int) }
            object_index true,
          wp)
      else (false, σ, tv.2)
    else if wp.object_property = PROP_DUTY_WINDOW then
      let tv := write_property_type_valid wp value BACNET_APPLICATION_TAG_UNSIGNED_INT
      if tv.1 then
        (true,
          setReqWritten
            { σ with Duty_Window :=
                (Function.update σ.Duty_Window object_index value.Unsigned_Int) }
            object_index true,
          wp)
      else (false, σ, tv.2)
    else if wp.object_property = PROP_SHED_LEVELS then
      let tv := write_property_type_valid wp value BACNET_APPLICATION_TAG_UNSIGNED_INT
      if tv.1 then
        if wp.array_index = 0 then
          (false, σ, { wp with error_class := ERROR_CLASS_PROPERTY,
                               error_code := ERROR_CODE_WRITE_ACCESS_DENIED })
        else if wp.array_index = BACNET_ARRAY_ALL then
          (true, σ, wp)
        else if wp.array_index ≤ MAX_SHED_LEVELS then
          (true,
            { σ with Shed_Levels := (fun i j =>
                if i = object_index ∧ j = wp.array_index - 1 then value.Unsigned_Int
                else σ.Shed_Levels i j) },
            wp)
        else
          (false, σ, { wp with error_class := ERROR_CLASS_PROPERTY,
                               error_code := ERROR_CODE_OTHER })
      else (false, σ, tv.2)
    else if wp.object_property = PROP_ENABLE then
      let tv := write_property_type_valid wp value BACNET_APPLICATION_TAG_BOOLEAN
      if tv.1 then
        (true,
          { σ with Load_Control_Enable :=
              (Function.update σ.Load_Control_Enable object_index value.Boolean) },
          wp)
      else (false, σ, tv.2)
    else
      (false, σ, { wp with error_class := ERROR_CLASS_PROPERTY,
                           error_code := ERROR_CODE_WRITE_ACCESS_DENIED })

/-! ## Concrete fixtures for witnesses and counterexamples -/

/-- A plain, non-wildcard wall-clock instant (2024-01-24 Wed 12:00). -/
def sampleDateTime : BACNET_DATE_TIME :=
  { date := { year := 2024, month := 1, day := 24, wday := 3 },
    time := { hour := 12, min := 0, sec := 0, hundredths := 0 } }

/-- One day after `sampleDateTime`. -/
def sampleDateTimeLater : BACNET_DATE_TIME :=
  { date := { year := 2024, month := 1, day := 25, wday := 4 },
    time := { hour := 12, min := 0, sec := 0, hundredths := 0 } }

/-- Analog Output collaborator whose outputs are commandable at priority 4
and sit at 100.0, high enough to meet any fixture shed request. -/
def sampleEnv : AOEnv := { pv := fun _ => .num 100, prio := fun _ => 4 }

/-- Analog Output collaborator whose outputs sit at 10.0, below every
fixture shed level, so `Able_To_Meet_Shed_Request` fails. -/
def unableEnv : AOEnv := { pv := fun _ => .num 10, prio := fun _ => 4 }

/-- All instances disabled, parked in SHED_COMPLIANT. -/
def disabledState : LCState :=
  { Load_Control_Init with Load_Control_Enable := fun _ => false,
                           Load_Control_State := fun _ => .SHED_COMPLIANT }

/-- All instances in SHED_REQUEST_PENDING with the current time exactly equal
to the start time and a Level 1 request. -/
def pendingAtStartState : LCState :=
  { Load_Control_Init with
      Load_Control_State := fun _ => .SHED_REQUEST_PENDING,
      Start_Time := fun _ => sampleDateTime,
      Current_Time := sampleDateTime,
      Requested_Shed_Level := fun _ => .level 1 }

/-- As `pendingAtStartState` but one day into a two-day shed window, so the
current time is strictly after the start and before the end. -/
def pastStartState : LCState :=
  { pendingAtStartState with Current_Time := sampleDateTimeLater,
                             Shed_Duration := fun _ => 2880 }

/-- All instances in SHED_COMPLIANT with a zero-duration window that expired
a day ago; `Start_Time` of every instance is distinctly not a wildcard. -/
def compliantExpiredState : LCState :=
  { Load_Control_Init with
      Load_Control_State := fun _ => .SHED_COMPLIANT,
      Start_Time := fun _ => sampleDateTime,
      Current_Time := sampleDateTimeLater }

/-- An application value carrying a REAL with the given payload. -/
def mkRealValue (a : FP) : BACNET_APPLICATION_DATA_VALUE :=
  { emptyValue with tag := BACNET_APPLICATION_TAG_REAL, Real := a }

/-- The claim's own comparison, written from the spec's words: two floats are
"ordered and equal" iff both are (non-NaN) numbers and equal. -/
def fp_ordered_eq : FP → FP → Bool
  | .num x, .num y => decide (x = y)
  | _, _ => false

/-- The claim-C2 request: write RequestedShedLevel with the context-tagged
payload `09 64` (context tag 0, length 1, value 0x64 = 100). -/
def shedLevelWriteRequest : BACNET_WRITE_PROPERTY_DATA :=
  { object_instance := 0, object_property := PROP_REQUESTED_SHED_LEVEL,
    array_index := BACNET_ARRAY_ALL, application_data := [9, 100],
    error_class := 0, error_code := 0 }

/-- A scalar-property write naming array index 1 whose payload is
context-tagged, so the initial application decode fails. -/
def scalarIndexedWriteRequest : BACNET_WRITE_PROPERTY_DATA :=
  { object_instance := 0, object_property := PROP_ENABLE,
    array_index := 1, application_data := [9, 100],
    error_class := 0, error_code := 0 }

/-- A scalar-property write naming array index 1 whose payload `21 01` is a
well-formed application-tagged unsigned. -/
def enableIndexedWriteRequest : BACNET_WRITE_PROPERTY_DATA :=
  { object_instance := 0, object_property := PROP_ENABLE,
    array_index := 1, application_data := [33, 1],
    error_class := 0, error_code := 0 }

/-- A routed destination fixture for the round-trip witness. -/
def sampleDest : BACNET_ADDRESS := { net := 1, len := 1, adr := [5] }

/-- A routed source fixture for the round-trip witness. -/
def sampleSrc : BACNET_ADDRESS := { net := 2, len := 2, adr := [122, 3] }

/-- A network-layer-message header with a vendor-range message type. -/
def sampleNd : BACNET_NPDU_DATA :=
  { protocol_version := 1, data_expecting_reply := true,
    network_layer_message := true, priority := 2,
    network_message_type := 144, vendor_id := 1234, hop_count := 255 }

/-- A pre-populated source struct (non-zero net, not the broadcast net,
non-empty mac) handed to the decoder as the `src` out parameter. -/
def presetSrc : BACNET_ADDRESS := { net := 7, len := 2, adr := [1, 2] }

/-! ## Theorems -/

/-- C5 counterexample: comparing a NaN REAL with a NaN REAL through
`bacapp_same_value` returns true, yet NaN and NaN are not "ordered and
equal"; the claim predicted false. -/
theorem bacapp_same_value_nan_nan :
    bacapp_same_value (mkRealValue .nan) (mkRealValue .nan) = true ∧
    fp_ordered_eq FP.nan FP.nan = false := by
  constructor <;> rfl

/-- C5 (amended): for REAL members `bacapp_same_value` is the complement of
`islessgreater`, so it answers true exactly when the operands are equal
numbers or at least one of them is NaN — unordered pairs compare as "same",
they are not rejected. -/
theorem bacapp_same_value_real_characterisation (a b : FP) :
    bacapp_same_value (mkRealValue a) (mkRealValue b) = ! islessgreater a b ∧
    (bacapp_same_value (mkRealValue a) (mkRealValue b) = true ↔
      a = b ∨ a = FP.nan ∨ b = FP.nan) := by
  constructor
  · rcases a with q | _ <;> rcases b with p | _ <;>
      simp [bacapp_same_value, mkRealValue, emptyValue, islessgreater, eq_comm,
        BACNET_APPLICATION_TAG_REAL, BACNET_APPLICATION_TAG_NULL,
        BACNET_APPLICATION_TAG_BOOLEAN, BACNET_APPLICATION_TAG_UNSIGNED_INT,
        BACNET_APPLICATION_TAG_SIGNED_INT]
  · rcases a with q | _ <;> rcases b with p | _ <;>
      simp [bacapp_same_value, mkRealValue, emptyValue, islessgreater,
        lt_or_lt_iff_ne, eq_comm,
        BACNET_APPLICATION_TAG_REAL, BACNET_APPLICATION_TAG_NULL,
        BACNET_APPLICATION_TAG_BOOLEAN, BACNET_APPLICATION_TAG_UNSIGNED_INT,
        BACNET_APPLICATION_TAG_SIGNED_INT]

/-- C5 witness: the characterisation applied at NaN and 0. -/
theorem bacapp_same_value_real_characterisation_witness :
    bacapp_same_value (mkRealValue .nan) (mkRealValue (.num 0)) = true ↔
      FP.nan = FP.num 0 ∨ FP.nan = FP.nan ∨ FP.num 0 = FP.nan :=
  (bacapp_same_value_real_characterisation .nan (.num 0)).2

/-- C7: a tick of a disabled Load Control instance forces that instance's
state to SHED_INACTIVE and does nothing else — the returned state differs
from the input only in the `Load_Control_State` entry of that instance (all
written flags, shed levels, times and the other instances are untouched) and
no Analog Output command or relinquish is issued. -/
theorem lc_disabled_tick_forces_inactive (env : AOEnv) (object_index : Nat)
    (σ : LCState) (h : σ.Load_Control_Enable object_index = false) :
    Load_Control_State_Machine env object_index σ =
      (setLCState σ object_index .SHED_INACTIVE, []) := by
  simp [Load_Control_State_Machine, h]

/-- C7 witness: the disabled fixture at instance 0. -/
theorem lc_disabled_tick_forces_inactive_witness :
    disabledState.Load_Control_Enable 0 = false ∧
    Load_Control_State_Machine sampleEnv 0 disabledState =
      (setLCState disabledState 0 .SHED_INACTIVE, []) :=
  ⟨rfl, lc_disabled_tick_forces_inactive sampleEnv 0 disabledState rfl⟩

/-- C2: writing RequestedShedLevel with the context-tagged payload
`09 64` (context tag 0, length 1, value 0x64) is rejected by
`Load_Control_Write_Property`: the initial `bacapp_decode_application_data`
returns an error on any context tag, so the function returns false with
VALUE_OUT_OF_RANGE, mutates nothing, and never reaches the
PROP_REQUESTED_SHED_LEVEL branch — even though the context decode that
branch would run yields exactly the Percent(100) the claim expects. -/
theorem lc_write_requested_shed_level_rejected :
    (Load_Control_Write_Property Load_Control_Init shedLevelWriteRequest).1 = false ∧
    (Load_Control_Write_Property Load_Control_Init shedLevelWriteRequest).2.1 =
      Load_Control_Init ∧
    (Load_Control_Write_Property Load_Control_Init shedLevelWriteRequest).2.2.error_code =
      ERROR_CODE_VALUE_OUT_OF_RANGE ∧
    (bacapp_decode_application_data shedLevelWriteRequest.application_data
      emptyValue).1 = BACNET_STATUS_ERROR ∧
    (bacapp_decode_context_data shedLevelWriteRequest.application_data emptyValue
      PROP_REQUESTED_SHED_LEVEL).2.context_tag = 0 ∧
    (bacapp_decode_context_data shedLevelWriteRequest.application_data emptyValue
      PROP_REQUESTED_SHED_LEVEL).2.Unsigned_Int = 100 := by
  refine ⟨rfl, rfl, rfl, rfl, rfl, rfl⟩

/-- C3: ticking instance 1 out of SHED_COMPLIANT past its end time does
relinquish the Analog Output at priority 4 and does return to SHED_INACTIVE,
but the wildcard reset of the start time lands on instance 0 — the loop-local
`i` of the C function, still 0 — while instance 1's own start time is left
untouched and non-wildcard. -/
theorem lc_compliant_finish_resets_instance_zero :
    (Load_Control_State_Machine sampleEnv 1 compliantExpiredState).1.Load_Control_State 1 =
      .SHED_INACTIVE ∧
    (Load_Control_State_Machine sampleEnv 1 compliantExpiredState).2 =
      [AO_Action.relinquish 1 4] ∧
    (Load_Control_State_Machine sampleEnv 1 compliantExpiredState).1.Start_Time 1 =
      compliantExpiredState.Start_Time 1 ∧
    datetime_wildcard
      ((Load_Control_State_Machine sampleEnv 1 compliantExpiredState).1.Start_Time 1) =
      false ∧
    (Load_Control_State_Machine sampleEnv 1 compliantExpiredState).1.Start_Time 0 =
      wildcardDateTime := by
  decide

/-- C10 counterexample: a write to the scalar property Enable naming array
index 1 whose payload is context-tagged returns false with
VALUE_OUT_OF_RANGE — the initial application decode fails first — not with
the claimed PROPERTY_IS_NOT_AN_ARRAY. -/
theorem lc_write_scalar_indexed_wrong_error_code :
    scalarIndexedWriteRequest.object_property ≠ PROP_SHED_LEVELS ∧
    scalarIndexedWriteRequest.array_index ≠ BACNET_ARRAY_ALL ∧
    (Load_Control_Write_Property Load_Control_Init scalarIndexedWriteRequest).1 = false ∧
    (Load_Control_Write_Property Load_Control_Init scalarIndexedWriteRequest).2.2.error_code =
      ERROR_CODE_VALUE_OUT_OF_RANGE ∧
    ERROR_CODE_VALUE_OUT_OF_RANGE ≠ ERROR_CODE_PROPERTY_IS_NOT_AN_ARRAY := by
  refine ⟨by decide, by decide, rfl, rfl, by decide⟩

/-- C10 (amended): provided the payload decodes as application data, a write
request whose property is not Shed_Levels and whose array index differs from
BACNET_ARRAY_ALL is rejected before the property dispatch with
PROPERTY_IS_NOT_AN_ARRAY, and the object state is returned unchanged. -/
theorem lc_write_scalar_indexed_rejected (σ : LCState)
    (wp : BACNET_WRITE_PROPERTY_DATA)
    (hdec : 0 ≤ (bacapp_decode_application_data wp.application_data emptyValue).1)
    (hprop : wp.object_property ≠ PROP_SHED_LEVELS)
    (hidx : wp.array_index ≠ BACNET_ARRAY_ALL) :
    Load_Control_Write_Property σ wp =
      (false, σ, { wp with error_class := ERROR_CLASS_PROPERTY,
                           error_code := ERROR_CODE_PROPERTY_IS_NOT_AN_ARRAY }) := by
  have h1 : ¬ (bacapp_decode_application_data wp.application_data emptyValue).1 < 0 := by
    omega
  simp [Load_Control_Write_Property, h1, hprop, hidx]

/-- C10 witness: an indexed Enable write with a well-formed unsigned payload. -/
theorem lc_write_scalar_indexed_rejected_witness :
    0 ≤ (bacapp_decode_application_data enableIndexedWriteRequest.application_data
      emptyValue).1 ∧
    Load_Control_Write_Property Load_Control_Init enableIndexedWriteRequest =
      (false, Load_Control_Init,
        { enableIndexedWriteRequest with error_class := ERROR_CLASS_PROPERTY,
                                         error_code := ERROR_CODE_PROPERTY_IS_NOT_AN_ARRAY }) :=
  ⟨by decide,
    lc_write_scalar_indexed_rejected Load_Control_Init enableIndexedWriteRequest
      (by decide) (by decide) (by decide)⟩

/-- C4 counterexample: in SHED_REQUEST_PENDING with the current time exactly
equal to the start time and `able_to_meet` holding, a tick does not consult
the able branch at all — the state stays SHED_REQUEST_PENDING and no Analog
Output command is issued, where the claim demanded the COMPLIANT transition
already at `now = start_time`. -/
theorem lc_request_pending_at_start_time_stalls :
    datetime_compare pendingAtStartState.Current_Time (pendingAtStartState.Start_Time 0) =
      0 ∧
    Able_To_Meet_Shed_Request sampleEnv pendingAtStartState 0 = true ∧
    (Load_Control_State_Machine sampleEnv 0 pendingAtStartState).1.Load_Control_State 0 =
      .SHED_REQUEST_PENDING ∧
    (Load_Control_State_Machine sampleEnv 0 pendingAtStartState).2 = [] := by
  decide

/-- Projection fact: the able-to-meet test ignores the end-time array. -/
theorem able_on_computeEndTime (env : AOEnv) (σ : LCState) (i j : Nat) :
    Able_To_Meet_Shed_Request env (computeEndTime σ j) i =
      Able_To_Meet_Shed_Request env σ i := rfl

/-- Projection fact for `computeEndTime`. -/
theorem computeEndTime_Current_Time (σ : LCState) (i : Nat) :
    (computeEndTime σ i).Current_Time = σ.Current_Time := rfl

/-- Projection fact for `computeEndTime`. -/
theorem computeEndTime_Start_Time (σ : LCState) (i : Nat) :
    (computeEndTime σ i).Start_Time = σ.Start_Time := rfl

/-- Projection fact for `computeEndTime`. -/
theorem computeEndTime_Requested (σ : LCState) (i : Nat) :
    (computeEndTime σ i).Requested_Shed_Level = σ.Requested_Shed_Level := rfl

/-- The freshly computed end time read back at the same instance. -/
theorem computeEndTime_End_Time_same (σ : LCState) (i : Nat) :
    (computeEndTime σ i).End_Time i =
      datetime_add_minutes (σ.Start_Time i) (σ.Shed_Duration i) := by
  simp [computeEndTime, setEndTime]

/-- Projection fact: writing the expected level leaves the request alone. -/
theorem setExpected_Requested (σ : LCState) (i : Nat) (v : BACNET_SHED_LEVEL) :
    (setExpected σ i v).Requested_Shed_Level = σ.Requested_Shed_Level := rfl

/-- The derived level ignores the expected-level array. -/
theorem rslv_setExpected (σ : LCState) (i j : Nat) (v : BACNET_SHED_LEVEL) :
    Requested_Shed_Level_Value (setExpected σ j v) i =
      Requested_Shed_Level_Value σ i := rfl

/-- The derived level ignores the end-time array. -/
theorem rslv_computeEndTime (σ : LCState) (i j : Nat) :
    Requested_Shed_Level_Value (computeEndTime σ j) i =
      Requested_Shed_Level_Value σ i := rfl

/-- C4 (amended): in SHED_REQUEST_PENDING with neither written flag set and
the window not yet expired, a tick taken strictly after the start time
(`now > start_time`; at `now = start_time` the machine stalls, see the
counterexample) consults `able_to_meet`: if it holds, expected and actual are
set to the requested level, the Analog Output is commanded at priority 4 to
the derived level, and the state becomes SHED_COMPLIANT; if not, expected
and actual are default-set and the state becomes SHED_NON_COMPLIANT. -/
theorem lc_request_pending_after_start (env : AOEnv) (i : Nat) (σ : LCState)
    (hen : σ.Load_Control_Enable i = true)
    (hst : σ.Load_Control_State i = .SHED_REQUEST_PENDING)
    (hrw : σ.Load_Control_Request_Written i = false)
    (hsw : σ.Start_Time_Property_Written i = false)
    (hend : ¬ datetime_compare
      (datetime_add_minutes (σ.Start_Time i) (σ.Shed_Duration i)) σ.Current_Time < 0)
    (hnow : 0 < datetime_compare σ.Current_Time (σ.Start_Time i)) :
    (Able_To_Meet_Shed_Request env σ i = true →
      Load_Control_State_Machine env i σ =
        (setLCState (setActual (setExpected (computeEndTime σ i) i
            (σ.Requested_Shed_Level i)) i (σ.Requested_Shed_Level i)) i .SHED_COMPLIANT,
          [AO_Action.set i (Requested_Shed_Level_Value σ i) 4])) ∧
    (Able_To_Meet_Shed_Request env σ i = false →
      Load_Control_State_Machine env i σ =
        (setLCState (setActual (setExpected (computeEndTime σ i) i
            (Shed_Level_Default_Set (σ.Requested_Shed_Level i))) i
            (Shed_Level_Default_Set (σ.Requested_Shed_Level i))) i .SHED_NON_COMPLIANT,
          [])) := by
  have hnotlt : ¬ datetime_compare σ.Current_Time (σ.Start_Time i) < 0 := by omega
  have hticks : Load_Control_State_Machine env i σ = lcRequestPending env i σ := by
    simp [Load_Control_State_Machine, hen, hst]
  constructor <;> intro hable <;>
    simp only [hticks, lcRequestPending, hrw, hsw, Bool.false_eq_true, if_false,
      ite_false, computeEndTime_End_Time_same, computeEndTime_Current_Time,
      computeEndTime_Start_Time, computeEndTime_Requested, setExpected_Requested,
      rslv_setExpected, rslv_computeEndTime, able_on_computeEndTime, hend, hnotlt,
      hnow, hable, gt_iff_lt, if_true, ite_true]

/-- C4 witness: the past-start fixture reaches SHED_COMPLIANT under the able
environment and SHED_NON_COMPLIANT under the unable one. -/
theorem lc_request_pending_after_start_witness :
    pastStartState.Load_Control_Request_Written 0 = false ∧
    (Load_Control_State_Machine sampleEnv 0 pastStartState).1.Load_Control_State 0 =
      .SHED_COMPLIANT ∧
    (Load_Control_State_Machine unableEnv 0 pastStartState).1.Load_Control_State 0 =
      .SHED_NON_COMPLIANT := by
  refine ⟨rfl, ?_, ?_⟩
  · have h := (lc_request_pending_after_start sampleEnv 0 pastStartState rfl rfl rfl rfl
      (by decide) (by decide)).1 (by decide)
    rw [h]
    simp [setLCState]
  · have h := (lc_request_pending_after_start unableEnv 0 pastStartState rfl rfl rfl rfl
      (by decide) (by decide)).2 (by decide)
    rw [h]
    simp [setLCState]

/-- C6 counterexample: the buffer `01 20 00` declares a destination present
(control bit 5) and ends inside the DNET field, yet the decoder returns 2 —
a positive count, not the claimed zero-or-negative error; the truncated
destination block is silently skipped. -/
theorem npdu_decode_truncated_dest_not_refused :
    (32 : Nat).testBit 5 = true ∧
    (bacnet_npdu_decode [1, 32, 0] (some zeroAddress) (some zeroAddress)
      zeroNpduData).1 = 2 ∧
    ¬ (bacnet_npdu_decode [1, 32, 0] (some zeroAddress) (some zeroAddress)
      zeroNpduData).1 ≤ 0 := by
  decide

/-- C6 (amended): the decoder returns 0 for a buffer shorter than two octets,
and -1 when a declared (in-bounds, non-zero) destination or source mac
length exceeds MAX_MAC_LEN or its address octets run past the end of the
buffer — for a source block whether or not a destination block precedes it;
truncation elsewhere in a declared field is tolerated without an error:
a buffer ending before the NET/LEN triple of a declared address block
decodes with a non-negative count, a destination-present frame ending right
after its address block decodes with hop count 0, and a network message
whose vendor id is cut off decodes its type octet and leaves the vendor id
unchanged. -/
theorem bacnet_npdu_decode_refusals (npdu : List Nat)
    (dest src : Option BACNET_ADDRESS) (nd : BACNET_NPDU_DATA) :
    (npdu.length < 2 → (bacnet_npdu_decode npdu dest src nd).1 = 0) ∧
    (∀ b0 b1 n1 n2 al r, npdu = b0 :: b1 :: n1 :: n2 :: al :: r →
      b1.testBit 5 = true → al ≠ 0 → (al > MAX_MAC_LEN ∨ r.length < al) →
      (bacnet_npdu_decode npdu dest src nd).1 = -1) ∧
    (∀ b0 b1 n1 n2 al r, npdu = b0 :: b1 :: n1 :: n2 :: al :: r →
      b1.testBit 5 = false → b1.testBit 3 = true → al ≠ 0 →
      (al > MAX_MAC_LEN ∨ r.length < al) →
      (bacnet_npdu_decode npdu dest src nd).1 = -1) ∧
    (∀ b0 b1 rest n1 n2 al r, npdu = b0 :: b1 :: rest →
      b1.testBit 5 = true → b1.testBit 3 = true →
      (npdu_decode_addr rest dest).ok = true →
      (npdu_decode_addr rest dest).rest = n1 :: n2 :: al :: r →
      al ≠ 0 → (al > MAX_MAC_LEN ∨ r.length < al) →
      (bacnet_npdu_decode npdu dest src nd).1 = -1) ∧
    (∀ b0 b1 rest, npdu = b0 :: b1 :: rest → rest.length < 3 →
      0 ≤ (bacnet_npdu_decode npdu dest src nd).1) ∧
    (∀ b0 b1 rest, npdu = b0 :: b1 :: rest → b1.testBit 5 = true →
      b1.testBit 3 = false → (npdu_decode_addr rest dest).ok = true →
      (npdu_decode_addr rest dest).rest = [] →
      (bacnet_npdu_decode npdu dest src nd).1 =
        2 + ((npdu_decode_addr rest dest).consumed : Int) ∧
      (bacnet_npdu_decode npdu dest src nd).2.2.2.hop_count = 0) ∧
    (∀ b0 b1 t vrest, npdu = b0 :: b1 :: t :: vrest →
      b1.testBit 7 = true → b1.testBit 5 = false → b1.testBit 3 = false →
      128 ≤ t → vrest.length < 2 →
      (bacnet_npdu_decode npdu dest src nd).1 = 3 ∧
      (bacnet_npdu_decode npdu dest src nd).2.2.2.vendor_id = nd.vendor_id) := by
  refine ⟨?_, ?_, ?_, ?_, ?_, ?_, ?_⟩
  · intro h
    match npdu with
    | [] => rfl
    | [x] => rfl
    | a :: b :: u => exact absurd h (by simp)
  · intro b0 b1 n1 n2 al r hn hb5 hal herr
    subst hn
    simp [bacnet_npdu_decode, npdu_decode_addr, hb5, hal, herr]
  · intro b0 b1 n1 n2 al r hn hb5 hb3 hal herr
    subst hn
    simp [bacnet_npdu_decode, npdu_decode_addr, hb5, hb3, hal, herr]
  · intro b0 b1 rest n1 n2 al r hn hb5 hb3 hok hre hal herr
    subst hn
    simp only [bacnet_npdu_decode, hb5, hb3, hok, hre, if_true, ite_true,
      eq_self_iff_true]
    simp [npdu_decode_addr, hal, herr, hok, hre]
  · intro b0 b1 rest hn hlen
    subst hn
    rcases rest with _ | ⟨x, _ | ⟨y, _ | ⟨z, u⟩⟩⟩
    · by_cases hb5 : b1.testBit 5 = true <;> by_cases hb3 : b1.testBit 3 = true <;>
        simp [bacnet_npdu_decode, npdu_decode_addr, hb5, hb3, Int.natCast_nonneg]
    · by_cases hb5 : b1.testBit 5 = true <;> by_cases hb3 : b1.testBit 3 = true <;>
        simp [bacnet_npdu_decode, npdu_decode_addr, hb5, hb3, Int.natCast_nonneg]
    · by_cases hb5 : b1.testBit 5 = true <;> by_cases hb3 : b1.testBit 3 = true <;>
        simp [bacnet_npdu_decode, npdu_decode_addr, hb5, hb3, Int.natCast_nonneg]
    · simp at hlen
      omega
  · intro b0 b1 rest hn hb5 hb3 hok hre
    subst hn
    by_cases hnet : (npdu_decode_addr rest dest).net = 0 <;>
      by_cases hnlm : b1.testBit 7 = true <;>
      constructor <;>
      simp [bacnet_npdu_decode, hb5, hb3, hok, hre, hnet, hnlm]
  · intro b0 b1 t vrest hn hb7 hb5 hb3 hge hlen
    subst hn
    rcases vrest with _ | ⟨v, _ | ⟨w, u⟩⟩
    · constructor <;>
        simp [bacnet_npdu_decode, npdu_decode_addr, hb7, hb5, hb3, hge]
    · constructor <;>
        simp [bacnet_npdu_decode, npdu_decode_addr, hb7, hb5, hb3, hge]
    · simp at hlen
      omega

/-- C6 witness: the refusal and tolerance shapes at concrete buffers: a
one-octet buffer, an over-long destination mac, an over-long source mac with
and without a preceding destination block, truncation before a declared
destination NET/LEN triple, a destination frame ending after its address
block, and a vendor-range network message cut off before its vendor id. -/
theorem bacnet_npdu_decode_refusals_witness :
    (bacnet_npdu_decode [1] none none zeroNpduData).1 = 0 ∧
    (bacnet_npdu_decode [1, 32, 0, 1, 200] none none zeroNpduData).1 = -1 ∧
    (bacnet_npdu_decode [1, 8, 0, 1, 200] none none zeroNpduData).1 = -1 ∧
    (bacnet_npdu_decode [1, 40, 0, 1, 0, 0, 1, 200] none none zeroNpduData).1 = -1 ∧
    0 ≤ (bacnet_npdu_decode [1, 32, 0] none none zeroNpduData).1 ∧
    ((bacnet_npdu_decode [1, 32, 0, 1, 0] none none zeroNpduData).1 =
        2 + ((npdu_decode_addr [0, 1, 0] none).consumed : Int) ∧
      (bacnet_npdu_decode [1, 32, 0, 1, 0] none none
        zeroNpduData).2.2.2.hop_count = 0) ∧
    ((bacnet_npdu_decode [1, 128, 144, 0] none none zeroNpduData).1 = 3 ∧
      (bacnet_npdu_decode [1, 128, 144, 0] none none
        zeroNpduData).2.2.2.vendor_id = zeroNpduData.vendor_id) := by
  refine ⟨?_, ?_, ?_, ?_, ?_, ?_, ?_⟩
  · exact (bacnet_npdu_decode_refusals [1] none none zeroNpduData).1 (by decide)
  · exact (bacnet_npdu_decode_refusals _ none none zeroNpduData).2.1
      1 32 0 1 200 [] rfl (by decide) (by decide) (by decide)
  · exact (bacnet_npdu_decode_refusals _ none none zeroNpduData).2.2.1
      1 8 0 1 200 [] rfl (by decide) (by decide) (by decide) (by decide)
  · exact (bacnet_npdu_decode_refusals _ none none zeroNpduData).2.2.2.1
      1 40 [0, 1, 0, 0, 1, 200] 0 1 200 [] rfl (by decide) (by decide) (by decide)
      (by decide) (by decide) (by decide)
  · exact (bacnet_npdu_decode_refusals _ none none zeroNpduData).2.2.2.2.1
      1 32 [0] rfl (by decide)
  · exact (bacnet_npdu_decode_refusals _ none none zeroNpduData).2.2.2.2.2.1
      1 32 [0, 1, 0] rfl (by decide) (by decide) (by decide) (by decide)
  · exact (bacnet_npdu_decode_refusals _ none none zeroNpduData).2.2.2.2.2.2
      1 128 144 [0] rfl (by decide) (by decide) (by decide) (by decide) (by decide)

/-- Helper: reading every slot of a list by index reproduces the list. -/
theorem range_map_getD (l : List Nat) :
    (List.range l.length).map (fun i => l.getD i 0) = l := by
  apply List.ext_get
  · simp
  · intro n h1 h2
    simp [List.getD_eq_getElem?_getD, List.getElem?_eq_getElem h2]

/-- Helper: the emitted address octet count equals the mac length. -/
theorem macBytes_length (a : BACNET_ADDRESS) : (macBytes a).length = a.len := by
  simp [macBytes]

/-- Helper: the clamp leaves `len` at the minimum of the caller's length and
MAX_MAC_LEN. -/
theorem clampMac_len (a : BACNET_ADDRESS) :
    (clampMac a).len = min a.len MAX_MAC_LEN := by
  by_cases h : a.len > MAX_MAC_LEN
  · have hm : min a.len MAX_MAC_LEN = MAX_MAC_LEN := by omega
    simp [clampMac, h, hm]
  · have hm : min a.len MAX_MAC_LEN = a.len := by omega
    simp [clampMac, h, hm]

/-- C8: the encoder never fails on an over-long mac address, for any
combination of destination, source and network-layer-message header: an
emitted destination (resp. source) whose len field exceeds MAX_MAC_LEN comes
back with the caller-owned len clamped to MAX_MAC_LEN, and the frame length
always counts each emitted address with `min len MAX_MAC_LEN` mac octets —
so an over-long address contributes exactly MAX_MAC_LEN address octets. -/
theorem npdu_encode_clamps_overlong_mac (dest src : Option BACNET_ADDRESS)
    (nd : BACNET_NPDU_DATA) :
    (∀ d, dest = some d → d.net ≠ 0 → MAX_MAC_LEN < d.len →
      (npdu_encode_pdu dest src nd).dest = some { d with len := MAX_MAC_LEN }) ∧
    (∀ s, src = some s → s.net ≠ 0 → s.len ≠ 0 → MAX_MAC_LEN < s.len →
      (npdu_encode_pdu dest src nd).src = some { s with len := MAX_MAC_LEN }) ∧
    (npdu_encode_pdu dest src nd).bytes.length =
      2 +
        (match dest with
         | some d => if d.net ≠ 0 then 4 + min d.len MAX_MAC_LEN else 0
         | none => 0) +
        (match src with
         | some s => if s.net ≠ 0 ∧ s.len ≠ 0 then 3 + min s.len MAX_MAC_LEN else 0
         | none => 0) +
        (if nd.network_layer_message then
          if 128 ≤ nd.network_message_type then 3 else 1
         else 0) := by
  refine ⟨?_, ?_, ?_⟩
  · intro d hd hnet hlen
    subst hd
    simp [npdu_encode_pdu, clampMac, hnet, hlen]
  · intro s hs hnet hlen0 hlen
    subst hs
    simp [npdu_encode_pdu, clampMac, hnet, hlen0, hlen]
  · rcases dest with _ | d <;> rcases src with _ | s
    · by_cases hnlm : nd.network_layer_message = true <;>
        by_cases hge : 128 ≤ nd.network_message_type <;>
        simp [npdu_encode_pdu, hnlm, hge, encode_unsigned16]
    · by_cases hsc : s.net ≠ 0 ∧ s.len ≠ 0 <;>
        by_cases hnlm : nd.network_layer_message = true <;>
        by_cases hge : 128 ≤ nd.network_message_type <;>
        simp [npdu_encode_pdu, hsc, hnlm, hge, encode_unsigned16, macBytes_length,
          clampMac_len] <;> omega
    · by_cases hdc : d.net ≠ 0 <;>
        by_cases hnlm : nd.network_layer_message = true <;>
        by_cases hge : 128 ≤ nd.network_message_type <;>
        simp [npdu_encode_pdu, hdc, hnlm, hge, encode_unsigned16, macBytes_length,
          clampMac_len] <;> omega
    · by_cases hdc : d.net ≠ 0 <;>
        by_cases hsc : s.net ≠ 0 ∧ s.len ≠ 0 <;>
        by_cases hnlm : nd.network_layer_message = true <;>
        by_cases hge : 128 ≤ nd.network_message_type <;>
        simp [npdu_encode_pdu, hdc, hsc, hnlm, hge, encode_unsigned16, macBytes_length,
          clampMac_len] <;> omega

/-- C8 witness: a nine-octet destination mac and a twenty-octet source mac
are both clamped to seven in a network-layer-message frame with a
vendor-range message type, and the frame holds exactly seven mac octets for
each address (2 + 11 + 10 + 3 = 26 octets in total). -/
theorem npdu_encode_clamps_overlong_mac_witness :
    (npdu_encode_pdu (some { net := 5, len := 9, adr := [1, 2, 3] })
      (some { net := 6, len := 20, adr := [4] }) sampleNd).dest =
      some { net := 5, len := MAX_MAC_LEN, adr := [1, 2, 3] } ∧
    (npdu_encode_pdu (some { net := 5, len := 9, adr := [1, 2, 3] })
      (some { net := 6, len := 20, adr := [4] }) sampleNd).src =
      some { net := 6, len := MAX_MAC_LEN, adr := [4] } ∧
    (npdu_encode_pdu (some { net := 5, len := 9, adr := [1, 2, 3] })
      (some { net := 6, len := 20, adr := [4] }) sampleNd).bytes.length = 26 := by
  refine ⟨?_, ?_, ?_⟩
  · exact (npdu_encode_clamps_overlong_mac _ _ sampleNd).1 _ rfl (by decide) (by decide)
  · exact (npdu_encode_clamps_overlong_mac _ _ sampleNd).2.1 _ rfl (by decide)
      (by decide) (by decide)
  · have h := (npdu_encode_clamps_overlong_mac
      (some { net := 5, len := 9, adr := [1, 2, 3] })
      (some { net := 6, len := 20, adr := [4] }) sampleNd).2.2
    rw [h]
    decide

/-- C9 counterexample: the buffer `01 20 00 01 C8` has control bit 3 clear,
yet the decoder aborts at -1 inside the malformed destination block and
returns the pre-populated source struct completely untouched — its net stays
7 (neither 0 nor the preserved broadcast net) and its len and mac octets are
not zeroed; the claim predicted unconditional zeroing. -/
theorem npdu_decode_source_untouched_on_dest_error :
    (32 : Nat).testBit 3 = false ∧
    (bacnet_npdu_decode [1, 32, 0, 1, 200] (some zeroAddress) (some presetSrc)
      zeroNpduData).1 = -1 ∧
    (bacnet_npdu_decode [1, 32, 0, 1, 200] (some zeroAddress) (some presetSrc)
      zeroNpduData).2.2.1 = some presetSrc ∧
    presetSrc.net ≠ BACNET_BROADCAST_NETWORK ∧ presetSrc.net ≠ 0 ∧
    presetSrc.len ≠ 0 := by
  decide

/-- C9 (amended): when control bit 3 is clear the decoder either aborts at
-1 on a malformed destination block, in which case the caller's source
struct is returned exactly as it was passed in, or returns a non-negative
count and zeroes the source struct — net becomes 0 unless it was pre-set to
BACNET_BROADCAST_NETWORK (0xFFFF), which is preserved, while len and every
mac octet are zeroed either way. -/
theorem npdu_decode_source_absent_dichotomy (b0 b1 : Nat) (rest : List Nat)
    (s0 : BACNET_ADDRESS) (dest0 : Option BACNET_ADDRESS) (nd : BACNET_NPDU_DATA)
    (hbit : b1.testBit 3 = false) :
    ((bacnet_npdu_decode (b0 :: b1 :: rest) dest0 (some s0) nd).1 = -1 ∧
      (bacnet_npdu_decode (b0 :: b1 :: rest) dest0 (some s0) nd).2.2.1 = some s0) ∨
    (0 ≤ (bacnet_npdu_decode (b0 :: b1 :: rest) dest0 (some s0) nd).1 ∧
      (bacnet_npdu_decode (b0 :: b1 :: rest) dest0 (some s0) nd).2.2.1 =
        some { net := if s0.net = BACNET_BROADCAST_NETWORK then s0.net else 0,
               len := 0, adr := s0.adr.map (fun _ => 0) }) := by
  by_cases hb5 : b1.testBit 5 = true
  · by_cases hok : (npdu_decode_addr rest dest0).ok = true
    · right
      constructor
      · simp only [bacnet_npdu_decode, hb5, hbit, hok, if_true, ite_true, if_false,
          ite_false, Bool.false_eq_true]
        exact Int.natCast_nonneg _
      · simp [bacnet_npdu_decode, hb5, hbit, hok, zero_src]
    · left
      constructor <;> simp [bacnet_npdu_decode, hb5, hbit, hok]
  · right
    constructor
    · simp only [bacnet_npdu_decode, hb5, hbit, if_true, ite_true, if_false,
        ite_false, Bool.false_eq_true]
      exact Int.natCast_nonneg _
    · simp [bacnet_npdu_decode, hb5, hbit, zero_src]

/-- C9 witness: a broadcast-marked source pointer on a well-formed two-octet
frame falls in the zeroing arm — its net survives intact while len and mac
are zeroed. -/
theorem npdu_decode_source_absent_dichotomy_witness :
    ((bacnet_npdu_decode [1, 0] none
      (some { net := BACNET_BROADCAST_NETWORK, len := 2, adr := [1, 2] })
      zeroNpduData).1 = -1 ∧
     (bacnet_npdu_decode [1, 0] none
      (some { net := BACNET_BROADCAST_NETWORK, len := 2, adr := [1, 2] })
      zeroNpduData).2.2.1 =
        some { net := BACNET_BROADCAST_NETWORK, len := 2, adr := [1, 2] }) ∨
    (0 ≤ (bacnet_npdu_decode [1, 0] none
      (some { net := BACNET_BROADCAST_NETWORK, len := 2, adr := [1, 2] })
      zeroNpduData).1 ∧
     (bacnet_npdu_decode [1, 0] none
      (some { net := BACNET_BROADCAST_NETWORK, len := 2, adr := [1, 2] })
      zeroNpduData).2.2.1 =
      some { net := if (BACNET_BROADCAST_NETWORK : Nat) = BACNET_BROADCAST_NETWORK
                    then (BACNET_BROADCAST_NETWORK : Nat) else 0,
             len := 0, adr := [1, 2].map (fun _ => 0) }) :=
  npdu_decode_source_absent_dichotomy 1 0 []
    { net := BACNET_BROADCAST_NETWORK, len := 2, adr := [1, 2] } none zeroNpduData
    (by decide)


/-- Helper: when the mac list is exactly `len` octets long, the encoder's
address loop emits it verbatim. -/
theorem macBytes_eq_adr (a : BACNET_ADDRESS) (h : a.adr.length = a.len) :
    macBytes a = a.adr := by
  unfold macBytes
  rw [← h]
  exact range_map_getD a.adr

/-- Helper: the control octet faithfully stores its four flag bits and the
two priority bits. -/
theorem npduControlOctet_bits (a b c d : Bool) (p : Nat) (hp : p < 4) :
    (npduControlOctet a b c d p).testBit 7 = a ∧
    (npduControlOctet a b c d p).testBit 5 = b ∧
    (npduControlOctet a b c d p).testBit 3 = c ∧
    (npduControlOctet a b c d p).testBit 2 = d ∧
    npduControlOctet a b c d p % 4 = p := by
  have h4 : p = 0 ∨ p = 1 ∨ p = 2 ∨ p = 3 := by omega
  rcases h4 with h | h | h | h <;> subst h <;>
    cases a <;> cases b <;> cases c <;> cases d <;> decide

/-- Helper: the decoder's address block, fed the exact octets the encoder
produced for a well-formed address, reproduces that address and hands back
the remaining octets. -/
theorem npdu_decode_addr_of_encoded (d : BACNET_ADDRESS) (tail : List Nat)
    (hnet : d.net < 65536) (hlen : d.len ≤ MAX_MAC_LEN) (hadr : d.adr.length = d.len) :
    npdu_decode_addr (encode_unsigned16 d.net ++ d.len :: (macBytes d ++ tail))
      (some zeroAddress) = ⟨true, 3 + d.len, d.net, some d, tail⟩ := by
  obtain ⟨n, l, adr⟩ := d
  simp only at hnet hlen hadr
  have hnet2 : n / 256 % 256 * 256 + n % 256 = n := by omega
  rw [macBytes_eq_adr ⟨n, l, adr⟩ hadr]
  by_cases h0 : l = 0
  · subst h0
    have hnil : adr = [] := List.eq_nil_of_length_eq_zero hadr
    subst hnil
    simp [npdu_decode_addr, encode_unsigned16, hnet2, zeroAddress]
  · have hgt : ¬ (l > MAX_MAC_LEN ∨ (adr ++ tail).length < l) := by
      push_neg
      exact ⟨by omega, by simp [hadr]⟩
    have htake : (adr ++ tail).take l = adr := by
      rw [← hadr]; exact List.take_left adr tail
    have hdrop : (adr ++ tail).drop l = tail := by
      rw [← hadr]; exact List.drop_left adr tail
    simp [npdu_decode_addr, encode_unsigned16, hnet2, h0, hgt, htake, hdrop,
      zeroAddress]
    exact ⟨hlen, by omega⟩

/-- Helper: `npdu_decode_addr_of_encoded` in the cons normal form produced by
simp, against a fresh zero address struct. -/
theorem npdu_decode_addr_of_encoded2 (d : BACNET_ADDRESS) (tail : List Nat)
    (hnet : d.net < 65536) (hlen : d.len ≤ MAX_MAC_LEN) (hadr : d.adr.length = d.len) :
    npdu_decode_addr (d.net / 256 % 256 :: d.net % 256 :: d.len :: (macBytes d ++ tail))
      (some { net := 0, len := 0, adr := [] }) = ⟨true, 3 + d.len, d.net, some d, tail⟩ := by
  have h := npdu_decode_addr_of_encoded d tail hnet hlen hadr
  simpa [encode_unsigned16, zeroAddress] using h

/-- Helper: `npdu_decode_addr_of_encoded2` when the address block is the last
thing in the buffer. -/
theorem npdu_decode_addr_of_encoded_nil (d : BACNET_ADDRESS)
    (hnet : d.net < 65536) (hlen : d.len ≤ MAX_MAC_LEN) (hadr : d.adr.length = d.len) :
    npdu_decode_addr (d.net / 256 % 256 :: d.net % 256 :: d.len :: macBytes d)
      (some { net := 0, len := 0, adr := [] }) = ⟨true, 3 + d.len, d.net, some d, []⟩ := by
  have h := npdu_decode_addr_of_encoded2 d [] hnet hlen hadr
  simpa using h

/-- Round-trip case: no routing destination and no routing source. -/
theorem roundtrip_nonenone (nd : BACNET_NPDU_DATA)
    (hprio : nd.priority < 4)
    (hhop : nd.hop_count = 0)
    (hmsg : if nd.network_layer_message then nd.network_message_type < 256
            else nd.network_message_type = NETWORK_MESSAGE_INVALID)
    (hven : if nd.network_layer_message ∧ 128 ≤ nd.network_message_type
            then nd.vendor_id < 65536 else nd.vendor_id = 0) :
    bacnet_npdu_decode (npdu_encode_pdu none none nd).bytes (some zeroAddress)
      (some zeroAddress) zeroNpduData =
      (((npdu_encode_pdu none none nd).bytes.length : Int),
        some zeroAddress, some zeroAddress, nd) := by
  obtain ⟨pv, der, nlm, p, mt, vid, hop⟩ := nd
  simp only at hprio hhop hmsg hven ⊢
  subst hhop
  cases nlm with
  | true =>
    obtain ⟨h7, h5, h3, h2, hp4⟩ := npduControlOctet_bits true false false der p hprio
    simp only [if_true, ite_true, true_and] at hmsg hven
    have hmt : mt % 256 = mt := Nat.mod_eq_of_lt hmsg
    by_cases hge : 128 ≤ mt
    · simp only [hge, if_true, ite_true] at hven
      have hv : vid / 256 % 256 * 256 + vid % 256 = vid := by omega
      simp [npdu_encode_pdu, bacnet_npdu_decode, h7, h5, h3, h2, hp4, hmt, hge,
        hv, zero_dest, zero_src, zeroAddress, encode_unsigned16, zeroNpduData,
        BACNET_BROADCAST_NETWORK]
    · simp only [hge, if_false, ite_false] at hven
      simp [npdu_encode_pdu, bacnet_npdu_decode, h7, h5, h3, h2, hp4, hmt, hge,
        hven, zero_dest, zero_src, zeroAddress, encode_unsigned16, zeroNpduData,
        BACNET_BROADCAST_NETWORK]
  | false =>
    obtain ⟨h7, h5, h3, h2, hp4⟩ := npduControlOctet_bits false false false der p hprio
    simp only [Bool.false_eq_true, if_false, ite_false, false_and] at hmsg hven
    simp [npdu_encode_pdu, bacnet_npdu_decode, h7, h5, h3, h2, hp4, hmsg, hven,
      zero_dest, zero_src, zeroAddress, encode_unsigned16, zeroNpduData,
      BACNET_BROADCAST_NETWORK, NETWORK_MESSAGE_INVALID]

/-- Round-trip case: routing destination only. -/
theorem roundtrip_some_none (d : BACNET_ADDRESS) (nd : BACNET_NPDU_DATA)
    (hprio : nd.priority < 4)
    (hd1 : d.net ≠ 0) (hd2 : d.net < 65536) (hd3 : d.len ≤ MAX_MAC_LEN)
    (hd4 : d.adr.length = d.len)
    (hmsg : if nd.network_layer_message then nd.network_message_type < 256
            else nd.network_message_type = NETWORK_MESSAGE_INVALID)
    (hven : if nd.network_layer_message ∧ 128 ≤ nd.network_message_type
            then nd.vendor_id < 65536 else nd.vendor_id = 0) :
    bacnet_npdu_decode (npdu_encode_pdu (some d) none nd).bytes (some zeroAddress)
      (some zeroAddress) zeroNpduData =
      (((npdu_encode_pdu (some d) none nd).bytes.length : Int),
        some d, some zeroAddress, nd) := by
  obtain ⟨pv, der, nlm, p, mt, vid, hop⟩ := nd
  simp only at hprio hmsg hven ⊢
  have hncl : ¬ d.len > MAX_MAC_LEN := by omega
  cases nlm with
  | true =>
    obtain ⟨h7, h5, h3, h2, hp4⟩ := npduControlOctet_bits true true false der p hprio
    simp only [if_true, ite_true, true_and] at hmsg hven
    have hmt : mt % 256 = mt := Nat.mod_eq_of_lt hmsg
    by_cases hge : 128 ≤ mt
    · simp only [hge, if_true, ite_true] at hven
      have hv : vid / 256 % 256 * 256 + vid % 256 = vid := by omega
      simp [npdu_encode_pdu, bacnet_npdu_decode, h7, h5, h3, h2, hp4, hmt, hge, hv,
        hd1, hncl, clampMac, zero_dest, zero_src, zeroAddress, encode_unsigned16,
        zeroNpduData, BACNET_BROADCAST_NETWORK, macBytes_length,
        npdu_decode_addr_of_encoded2 d, hd2, hd3, hd4]
      omega
    · simp only [hge, if_false, ite_false] at hven
      simp [npdu_encode_pdu, bacnet_npdu_decode, h7, h5, h3, h2, hp4, hmt, hge, hven,
        hd1, hncl, clampMac, zero_dest, zero_src, zeroAddress, encode_unsigned16,
        zeroNpduData, BACNET_BROADCAST_NETWORK, macBytes_length,
        npdu_decode_addr_of_encoded2 d, hd2, hd3, hd4]
      omega
  | false =>
    obtain ⟨h7, h5, h3, h2, hp4⟩ := npduControlOctet_bits false true false der p hprio
    simp only [Bool.false_eq_true, if_false, ite_false, false_and] at hmsg hven
    simp [npdu_encode_pdu, bacnet_npdu_decode, h7, h5, h3, h2, hp4, hmsg, hven,
      hd1, hncl, clampMac, zero_dest, zero_src, zeroAddress, encode_unsigned16,
      zeroNpduData, BACNET_BROADCAST_NETWORK, NETWORK_MESSAGE_INVALID, macBytes_length,
      npdu_decode_addr_of_encoded2 d, hd2, hd3, hd4]
    omega

/-- Round-trip case: routing source only. -/
theorem roundtrip_none_some (s : BACNET_ADDRESS) (nd : BACNET_NPDU_DATA)
    (hprio : nd.priority < 4)
    (hs1 : s.net ≠ 0) (hs2 : s.net < 65536) (hs3 : s.len ≠ 0)
    (hs4 : s.len ≤ MAX_MAC_LEN) (hs5 : s.adr.length = s.len)
    (hhop : nd.hop_count = 0)
    (hmsg : if nd.network_layer_message then nd.network_message_type < 256
            else nd.network_message_type = NETWORK_MESSAGE_INVALID)
    (hven : if nd.network_layer_message ∧ 128 ≤ nd.network_message_type
            then nd.vendor_id < 65536 else nd.vendor_id = 0) :
    bacnet_npdu_decode (npdu_encode_pdu none (some s) nd).bytes (some zeroAddress)
      (some zeroAddress) zeroNpduData =
      (((npdu_encode_pdu none (some s) nd).bytes.length : Int),
        some zeroAddress, some s, nd) := by
  obtain ⟨pv, der, nlm, p, mt, vid, hop⟩ := nd
  simp only at hprio hhop hmsg hven ⊢
  subst hhop
  have hncl : ¬ s.len > MAX_MAC_LEN := by omega
  cases nlm with
  | true =>
    obtain ⟨h7, h5, h3, h2, hp4⟩ := npduControlOctet_bits true false true der p hprio
    simp only [if_true, ite_true, true_and] at hmsg hven
    have hmt : mt % 256 = mt := Nat.mod_eq_of_lt hmsg
    by_cases hge : 128 ≤ mt
    · simp only [hge, if_true, ite_true] at hven
      have hv : vid / 256 % 256 * 256 + vid % 256 = vid := by omega
      simp [npdu_encode_pdu, bacnet_npdu_decode, h7, h5, h3, h2, hp4, hmt, hge, hv,
        hs1, hs3, hncl, clampMac, zero_dest, zero_src, zeroAddress, encode_unsigned16,
        zeroNpduData, BACNET_BROADCAST_NETWORK, macBytes_length,
        npdu_decode_addr_of_encoded2 s, hs2, hs4, hs5]
      omega
    · simp only [hge, if_false, ite_false] at hven
      simp [npdu_encode_pdu, bacnet_npdu_decode, h7, h5, h3, h2, hp4, hmt, hge, hven,
        hs1, hs3, hncl, clampMac, zero_dest, zero_src, zeroAddress, encode_unsigned16,
        zeroNpduData, BACNET_BROADCAST_NETWORK, macBytes_length,
        npdu_decode_addr_of_encoded2 s, hs2, hs4, hs5]
      omega
  | false =>
    obtain ⟨h7, h5, h3, h2, hp4⟩ := npduControlOctet_bits false false true der p hprio
    simp only [Bool.false_eq_true, if_false, ite_false, false_and] at hmsg hven
    simp [npdu_encode_pdu, bacnet_npdu_decode, h7, h5, h3, h2, hp4, hmsg, hven,
      hs1, hs3, hncl, clampMac, zero_dest, zero_src, zeroAddress, encode_unsigned16,
      zeroNpduData, BACNET_BROADCAST_NETWORK, NETWORK_MESSAGE_INVALID, macBytes_length,
      npdu_decode_addr_of_encoded2 s, npdu_decode_addr_of_encoded_nil s, hs2, hs4, hs5]
    omega

/-- Round-trip case: both routing addresses present. -/
theorem roundtrip_some_some (d s : BACNET_ADDRESS) (nd : BACNET_NPDU_DATA)
    (hprio : nd.priority < 4)
    (hd1 : d.net ≠ 0) (hd2 : d.net < 65536) (hd3 : d.len ≤ MAX_MAC_LEN)
    (hd4 : d.adr.length = d.len)
    (hs1 : s.net ≠ 0) (hs2 : s.net < 65536) (hs3 : s.len ≠ 0)
    (hs4 : s.len ≤ MAX_MAC_LEN) (hs5 : s.adr.length = s.len)
    (hmsg : if nd.network_layer_message then nd.network_message_type < 256
            else nd.network_message_type = NETWORK_MESSAGE_INVALID)
    (hven : if nd.network_layer_message ∧ 128 ≤ nd.network_message_type
            then nd.vendor_id < 65536 else nd.vendor_id = 0) :
    bacnet_npdu_decode (npdu_encode_pdu (some d) (some s) nd).bytes (some zeroAddress)
      (some zeroAddress) zeroNpduData =
      (((npdu_encode_pdu (some d) (some s) nd).bytes.length : Int),
        some d, some s, nd) := by
  obtain ⟨pv, der, nlm, p, mt, vid, hop⟩ := nd
  simp only at hprio hmsg hven ⊢
  have hncld : ¬ d.len > MAX_MAC_LEN := by omega
  have hncls : ¬ s.len > MAX_MAC_LEN := by omega
  cases nlm with
  | true =>
    obtain ⟨h7, h5, h3, h2, hp4⟩ := npduControlOctet_bits true true true der p hprio
    simp only [if_true, ite_true, true_and] at hmsg hven
    have hmt : mt % 256 = mt := Nat.mod_eq_of_lt hmsg
    by_cases hge : 128 ≤ mt
    · simp only [hge, if_true, ite_true] at hven
      have hv : vid / 256 % 256 * 256 + vid % 256 = vid := by omega
      simp [npdu_encode_pdu, bacnet_npdu_decode, h7, h5, h3, h2, hp4, hmt, hge, hv,
        hd1, hs1, hs3, hncld, hncls, clampMac, zero_dest, zero_src, zeroAddress,
        encode_unsigned16, zeroNpduData, BACNET_BROADCAST_NETWORK, macBytes_length,
        npdu_decode_addr_of_encoded2 d, npdu_decode_addr_of_encoded2 s,
        hd2, hd3, hd4, hs2, hs4, hs5]
      omega
    · simp only [hge, if_false, ite_false] at hven
      simp [npdu_encode_pdu, bacnet_npdu_decode, h7, h5, h3, h2, hp4, hmt, hge, hven,
        hd1, hs1, hs3, hncld, hncls, clampMac, zero_dest, zero_src, zeroAddress,
        encode_unsigned16, zeroNpduData, BACNET_BROADCAST_NETWORK, macBytes_length,
        npdu_decode_addr_of_encoded2 d, npdu_decode_addr_of_encoded2 s,
        hd2, hd3, hd4, hs2, hs4, hs5]
      omega
  | false =>
    obtain ⟨h7, h5, h3, h2, hp4⟩ := npduControlOctet_bits false true true der p hprio
    simp only [Bool.false_eq_true, if_false, ite_false, false_and] at hmsg hven
    simp [npdu_encode_pdu, bacnet_npdu_decode, h7, h5, h3, h2, hp4, hmsg, hven,
      hd1, hs1, hs3, hncld, hncls, clampMac, zero_dest, zero_src, zeroAddress,
      encode_unsigned16, zeroNpduData, BACNET_BROADCAST_NETWORK,
      NETWORK_MESSAGE_INVALID, macBytes_length,
      npdu_decode_addr_of_encoded2 d, npdu_decode_addr_of_encoded2 s,
      hd2, hd3, hd4, hs2, hs4, hs5]
    omega

/-- C1: decoding the octet string produced by the NPDU encoder into fresh
zero out-structures yields back exactly the header and the addresses that
were encoded (an absent address decodes to the zero address struct, which is
how the C API renders "no routing info"), and consumes exactly the number of
octets the encoder produced.  The header ranges over all well-formed values:
any protocol version and hop count, the four priorities, any message type
(one octet when a network-layer message is conveyed, the INVALID sentinel
otherwise, per the data model's validity conditions, with the vendor id
likewise zero whenever no vendor field is on the wire), and the destination
(resp. source) present exactly when its net (resp. net and mac length) is
non-zero, with mac lengths at most MAX_MAC_LEN. -/
theorem npdu_encode_decode_roundtrip (dest src : Option BACNET_ADDRESS)
    (nd : BACNET_NPDU_DATA) (hprio : nd.priority < 4)
    (hd : ∀ d, dest = some d →
      d.net ≠ 0 ∧ d.net < 65536 ∧ d.len ≤ MAX_MAC_LEN ∧ d.adr.length = d.len)
    (hs : ∀ s, src = some s →
      s.net ≠ 0 ∧ s.net < 65536 ∧ s.len ≠ 0 ∧ s.len ≤ MAX_MAC_LEN ∧
        s.adr.length = s.len)
    (hhop : dest = none → nd.hop_count = 0)
    (hmsg : if nd.network_layer_message then nd.network_message_type < 256
            else nd.network_message_type = NETWORK_MESSAGE_INVALID)
    (hven : if nd.network_layer_message ∧ 128 ≤ nd.network_message_type
            then nd.vendor_id < 65536 else nd.vendor_id = 0) :
    bacnet_npdu_decode (npdu_encode_pdu dest src nd).bytes (some zeroAddress)
      (some zeroAddress) zeroNpduData =
      (((npdu_encode_pdu dest src nd).bytes.length : Int),
        some (dest.getD zeroAddress), some (src.getD zeroAddress), nd) := by
  rcases dest with _ | d <;> rcases src with _ | s
  · exact roundtrip_nonenone nd hprio (hhop rfl) hmsg hven
  · obtain ⟨hs1, hs2, hs3, hs4, hs5⟩ := hs s rfl
    exact roundtrip_none_some s nd hprio hs1 hs2 hs3 hs4 hs5 (hhop rfl) hmsg hven
  · obtain ⟨hd1, hd2, hd3, hd4⟩ := hd d rfl
    exact roundtrip_some_none d nd hprio hd1 hd2 hd3 hd4 hmsg hven
  · obtain ⟨hd1, hd2, hd3, hd4⟩ := hd d rfl
    obtain ⟨hs1, hs2, hs3, hs4, hs5⟩ := hs s rfl
    exact roundtrip_some_some d s nd hprio hd1 hd2 hd3 hd4 hs1 hs2 hs3 hs4 hs5 hmsg hven

/-- C1 witness: a frame with destination, source, and a vendor-specific
network message round-trips. -/
theorem npdu_encode_decode_roundtrip_witness :
    bacnet_npdu_decode (npdu_encode_pdu (some sampleDest) (some sampleSrc) sampleNd).bytes
      (some zeroAddress) (some zeroAddress) zeroNpduData =
      (((npdu_encode_pdu (some sampleDest) (some sampleSrc) sampleNd).bytes.length : Int),
        some ((some sampleDest).getD zeroAddress),
        some ((some sampleSrc).getD zeroAddress), sampleNd) :=
  npdu_encode_decode_roundtrip (some sampleDest) (some sampleSrc) sampleNd (by decide)
    (fun d h => by simp only [Option.some.injEq] at h; subst h; decide)
    (fun s h => by simp only [Option.some.injEq] at h; subst h; decide)
    (fun h => Option.noConfusion h) (by decide) (by decide)

end BacnetStack
